import Mathlib

/-!
Verification of the ja-assure_rag query-understanding and execution engine.

This file gives a shallow embedding, in Lean 4, of the deterministic core of
the repository (field decoding, field-match scoring, the smart query executor,
the query parser with its deterministic interceptors and post-parse
validation, conversation history management, the answer formatter, and the
orchestration skeleton of `handle_query`), and proves or refutes the frozen
specification claims about it.

Modelling conventions:
- Python strings are Lean `String`s; all string primitives (`lower`, `strip`,
  `split`, `replace`, substring membership, `title`) are re-implemented as
  structural recursion on `String.data` so that every definition evaluates by
  kernel reduction. Inputs are ASCII, for which these agree with Python.
- Python dicts whose iteration order matters are association lists
  (`List (String × String)`) with first-occurrence key semantics, mirroring
  Python insertion order; `dict.update` is modelled by `dictUpdate`.
- `None`-able strings are `Option String`; Python truthiness of a possibly
  missing string is `truthy` (`none` and `some ""` are falsy).
- External collaborators (embedding service, vector index search, the
  language-model `generate` call, and the result of JSON-extracting the
  model's parse response) are oracle parameters, universally quantified in
  the theorems; an `Except` result models a call that may raise. Quantifying
  over every oracle value covers every possible model/embedding behaviour.
- Similarity scores are modelled as `ℚ` (only order comparisons are performed
  on them in the verified code paths).
-/

/-! ### Python string primitives -/

/-- Substring test: `needle` occurs contiguously in `hay` (Python `needle in hay`). -/
def listIsInfix (needle : List Char) : List Char → Bool
  | [] => needle.isEmpty
  | c :: t => needle.isPrefixOf (c :: t) || listIsInfix needle t

/-- Python `needle in hay` on strings. -/
def pyContains (hay needle : String) : Bool :=
  listIsInfix needle.data hay.data

/-- Python `s.lower()` (ASCII). -/
def pyLower (s : String) : String :=
  ⟨s.data.map Char.toLower⟩

/-- Python `s.upper()` (ASCII). -/
def pyUpper (s : String) : String :=
  ⟨s.data.map Char.toUpper⟩

/-- ASCII whitespace recognizer, matching Python `str.strip`/`str.split`. -/
def isPyWs (c : Char) : Bool :=
  c = ' ' || c = '\t' || c = '\n' || c = '\r'

/-- Python `s.strip()`. -/
def pyStrip (s : String) : String :=
  ⟨((s.data.dropWhile isPyWs).reverse.dropWhile isPyWs).reverse⟩

/-- Worker for `pyWords`: split on whitespace runs, dropping empties. -/
def pyWordsAux : List Char → List Char → List String
  | [], acc => if acc.isEmpty then [] else [⟨acc.reverse⟩]
  | c :: rest, acc =>
    if isPyWs c then
      if acc.isEmpty then pyWordsAux rest [] else ⟨acc.reverse⟩ :: pyWordsAux rest []
    else pyWordsAux rest (c :: acc)

/-- Python `s.split()` (no argument: whitespace runs, no empty tokens). -/
def pyWords (s : String) : List String :=
  pyWordsAux s.data []

/-- Fuel-bounded worker for `pyReplace` (the fuel is the haystack length;
one character is consumed per step, so it always suffices for a non-empty
pattern, and the source only replaces non-empty patterns). -/
def pyReplaceAux (pat rep : List Char) : Nat → List Char → List Char
  | _, [] => []
  | 0, s => s
  | n + 1, c :: rest =>
    if pat ≠ [] && pat.isPrefixOf (c :: rest) then
      rep ++ pyReplaceAux pat rep n ((c :: rest).drop pat.length)
    else
      c :: pyReplaceAux pat rep n rest

/-- Python `s.replace(pat, rep)`: all non-overlapping occurrences, left to right. -/
def pyReplace (s pat rep : String) : String :=
  ⟨pyReplaceAux pat.data rep.data s.data.length s.data⟩

/-- Python `s.title()` helper: uppercase a letter that follows a non-letter,
lowercase the rest. -/
def pyTitleAux : Bool → List Char → List Char
  | _, [] => []
  | prevAlpha, c :: rest =>
    if c.isAlpha then
      (if prevAlpha then c.toLower else c.toUpper) :: pyTitleAux true rest
    else
      c :: pyTitleAux false rest

/-- Python `s.title()` (ASCII). -/
def pyTitle (s : String) : String :=
  ⟨pyTitleAux false s.data⟩

/-- Python `s[:n]` on strings. -/
def pyTake (n : Nat) (s : String) : String :=
  ⟨s.data.take n⟩

/-- Python `"sep".join(parts)`. -/
def pyJoin (sep : String) (parts : List String) : String :=
  ⟨List.intercalate sep.data (parts.map String.data)⟩

/-- Python truthiness of an optional string: `None` and `""` are falsy. -/
def truthy : Option String → Bool
  | none => false
  | some s => !(s == "")

/-- Python `str(x)` for an optional string (used where the source interpolates
a possibly-`None` value into an f-string). -/
def pyShowOpt : Option String → String
  | none => "None"
  | some s => s

/-- Python `s.isdigit()` (ASCII digits; non-empty). -/
def pyIsDigit (s : String) : Bool :=
  !s.data.isEmpty && s.data.all Char.isDigit

/-- Ordered-dict update `d1.update(d2)`: keys of `d1` keep their position with
`d2`'s value if overridden; new keys of `d2` are appended in order. -/
def dictUpdate (d1 d2 : List (String × String)) : List (String × String) :=
  (d1.map fun kv =>
    match d2.find? (fun kv2 => kv2.1 = kv.1) with
    | some kv2 => (kv.1, kv2.2)
    | none => kv) ++
  d2.filter (fun kv2 => (d1.find? (fun kv => kv.1 = kv2.1)).isNone)

/-- Ordered-dict assignment `d[k] = v`: overwrite in place or append. -/
def dictInsert (d : List (String × String)) (k v : String) : List (String × String) :=
  if (d.find? (fun kv => kv.1 = k)).isSome then
    d.map (fun kv => if kv.1 = k then (k, v) else kv)
  else d ++ [(k, v)]

/-- Ordered-dict key membership. -/
def dictHasKey (d : List (String × String)) (k : String) : Bool :=
  (d.find? (fun kv => kv.1 = k)).isSome

/-- Stable insertion of a string into a length-descending sorted list
(later ties go after earlier entries, matching a stable sort). -/
def insertByLenDesc (x : String) : List String → List String
  | [] => [x]
  | y :: ys => if y.length < x.length then x :: y :: ys else y :: insertByLenDesc x ys

/-- Stable sort by length, descending (Python `sorted(names, key=len, reverse=True)`). -/
def sortByLenDesc (l : List String) : List String :=
  l.foldl (fun acc x => insertByLenDesc x acc) []

/-- Stable insertion into a lexicographically ascending sorted list. -/
def insertLex (x : String) : List String → List String
  | [] => [x]
  | y :: ys => if x < y then x :: y :: ys else y :: insertLex x ys

/-- Python `sorted(strings)` (code-point lexicographic). -/
def sortLex (l : List String) : List String :=
  l.foldl (fun acc x => insertLex x acc) []

/-! ### src/mappings.py — field decode router

Each decode map is an association list `code → label`, copied verbatim from
the source. `decode_field` mirrors the Python routing exactly. -/

def YES_NO_MAP : List (String × String) :=
  [("001", "Yes"), ("002", "No"), ("1", "Yes"), ("2", "No"),
   ("true", "Yes"), ("false", "No")]

def INDUSTRY_MAP : List (String × String) :=
  [("1", "Jewellery & Gold"), ("2", "Diamond & Precious Stones"),
   ("6", "Money Services"), ("7", "Luxury Watches"), ("13", "Pawnbrokers")]

def BUSINESS_TYPE_MAP : List (String × String) :=
  [("1", "Jewellery Retailer"), ("2", "Jewellery & Gold Manufacturer"),
   ("3", "Jewellery & Gold Wholesaler"), ("5", "Jewellery & Gold Bullion Distributor"),
   ("8", "Diamond Dealers"), ("10", "Money Changer"), ("11", "Remittance Services"),
   ("12", "Luxury Good Retailer"), ("13", "Luxury Watch Retailer"),
   ("34", "Pawnbrokers"), ("35", "Precious Stones Dealers")]

def PREMISE_TYPE_MAP : List (String × String) :=
  [("001", "Office building"), ("002", "Shopping centre"),
   ("003", "Shop house"), ("004", "Others")]

def MATERIAL_MAP : List (String × String) :=
  [("001", "Concrete"), ("002", "Tiled"), ("003", "Metal"), ("004", "Wood")]

def CCTV_BACKUP_MAP : List (String × String) :=
  [("001", "Real-time backup - remote"), ("002", "Real-time backup - on site only"),
   ("003", "Periodic backup - remote"), ("004", "Periodic backup - onsite"),
   ("005", "No backup"), ("006", "Others")]

def CCTV_CAPABILITY_MAP : List (String × String) :=
  [("001", "Motion detection"), ("002", "Night vision"), ("003", "Others")]

def CCTV_RETENTION_MAP : List (String × String) :=
  [("001", "1 week"), ("002", "2 weeks"), ("003", "3 weeks"), ("004", "1 month"),
   ("005", "3 months"), ("006", "6 months"), ("007", "9 months"), ("008", "1 year"),
   ("009", "More than 1 year")]

def DOOR_ACCESS_MAP : List (String × String) :=
  [("001", "Combinations"), ("002", "Finger print"), ("003", "Facial"),
   ("004", "Digital password"), ("005", "Key only"), ("006", "Others")]

def DOOR_MATERIAL_MAP : List (String × String) :=
  [("001", "Steel"), ("002", "Wooden"), ("003", "Glass"), ("004", "Others")]

def REAR_DOOR_MAP : List (String × String) :=
  [("001", "Steel"), ("002", "Wooden"), ("003", "Others")]

def ROLLER_SHUTTER_MAP : List (String × String) :=
  [("001", "Roller shutter"), ("002", "Iron grill"), ("003", "Others")]

def ALARM_CONNECTION_MAP : List (String × String) :=
  [("001", "Security company"), ("002", "Landlord security"),
   ("003", "Police"), ("004", "Senior management")]

def ALARM_TYPE_MAP : List (String × String) :=
  [("001", "Door contacts"), ("002", "Roller shutter contacts"),
   ("003", "Infra-red beams"), ("004", "Ultrasonic detector"),
   ("005", "Motion detector"), ("006", "Seismic detector"),
   ("007", "Glass sensors"), ("008", "Portable panic button"),
   ("009", "Fixed type panic button"), ("010", "Others")]

def SAFE_GRADE_MAP : List (String × String) :=
  [("001", "Ungraded"), ("002", "Grade I"), ("003", "Grade II"),
   ("004", "Grade III"), ("005", "Grade IV"), ("006", "Grade V"),
   ("007", "Grade VI"), ("008", "Grade VII")]

def KEY_COMBINATION_MAP : List (String × String) :=
  [("001", "Key"), ("002", "Combination code"), ("003", "Both")]

def SHOWCASE_THICKNESS_MAP : List (String × String) :=
  [("001", "21 mm"), ("002", "17-19 mm"), ("003", "15 mm"),
   ("004", "11-13 mm"), ("005", "9-10 mm"), ("006", "Others")]

def SHOWCASE_PROTECTION_MAP : List (String × String) :=
  [("001", "Security glass"), ("002", "Laminated glass"), ("003", "Others")]

def COUNTER_THICKNESS_MAP : List (String × String) :=
  [("001", "19-21 mm"), ("002", "15-17 mm"), ("003", "12-14 mm"),
   ("004", "10-11 mm"), ("005", "6-9 mm"), ("006", "Others")]

def COUNTER_PROTECTION_MAP : List (String × String) :=
  [("001", "External vertical iron grilles and security glass"),
   ("002", "External vertical iron grilles and laminated glass"),
   ("003", "Internal lateral iron grilles and security glass"),
   ("004", "Internal lateral iron grilles and laminated"),
   ("005", "Security glass"), ("006", "Laminated glass")]

def DW_COUNTER_PROTECTION_MAP : List (String × String) :=
  [("001", "External vertical iron grilles and security glass"),
   ("002", "External vertical iron grilles and laminated glass"),
   ("003", "Internal lateral iron grilles and security glass"),
   ("004", "Internal lateral iron grilles and laminated"),
   ("005", "Security glass"), ("006", "Laminated glass"), ("007", "Others")]

def REAR_COUNTER_PROTECTION_MAP : List (String × String) :=
  [("001", "Iron grilles"), ("002", "Drawer with keylocks"),
   ("003", "Wooden flaps with keylocks"), ("004", "Wooden flaps with latch locks"),
   ("005", "Others")]

def POLICE_DISTANCE_MAP : List (String × String) :=
  [("001", "Less than 2 Km"), ("002", "Within 2-5 Kms"), ("003", "5-10 Kms"),
   ("004", "Within 10-25 Kms"), ("005", "More than 25 Kms")]

def BACKGROUND_CHECK_MAP : List (String × String) :=
  [("001", "Contract in place + financial, criminal, social media checks once a year"),
   ("002", "Contract in place + criminal, social media checks once a year"),
   ("003", "Contract in place + Social media checks once a year"),
   ("004", "Contract in place")]

def STOCK_CHECK_MAP : List (String × String) :=
  [("001", "Daily"), ("002", "Weekly"), ("003", "Monthly"),
   ("004", "Less than 6 months"), ("005", "More than 6 months")]

def RECORDS_MAP : List (String × String) :=
  [("001", "Online"), ("002", "Offline")]

def CLAIM_STATUS_MAP : List (String × String) :=
  [("001", "No claim within 3 years"), ("002", "Claims within the past 3 years")]

def DESTINATION_AIRPORT_MAP : List (String × String) :=
  [("001", "Bangkok airport"), ("002", "Hong Kong airport"),
   ("003", "Kuala Lumpur airport"), ("004", "Singapore airport"),
   ("005", "Tokyo airport"), ("006", "Sydney airport"),
   ("007", "Melbourne airport"), ("008", "Jakarta airport"), ("009", "All others")]

def EXHIBITION_INSURANCE_MAP : List (String × String) :=
  [("001", "Exhibition site risk only"),
   ("002", "Exhibition site risk including transit to/from by professional carrier")]

/-- Fields that are "Add the Value directly" — never decoded. -/
def PASSTHROUGH_FIELDS : List String :=
  ["premise_type_others_label", "roof_materials_others_label",
   "wall_materials_others_label", "floor_materials_others_label",
   "cctv_model_label", "cctv_brand_name_label", "type_of_backup_others_label",
   "additional_capability_others_label", "door_access_others_label",
   "others_label", "rear_door_others_label", "main_door_others_label",
   "inner_door_others_label", "alarm_brand_name_label", "alarm_model_label",
   "type_of_alarm_others_label", "name_of_cms_company_label", "safe_model_label",
   "safe_weight_label", "safe_brand_name_label", "time_locking_brand_label",
   "wall_showcases_are_protected_by_others_label",
   "dw_counter_showcases_are_protected_by_others_label",
   "display_window_protected_by_others_label",
   "rear_display_window_protected_by_others_label",
   "display_window_form_title_label", "director_house_coverage_label",
   "fidelity_guarantee_insurance_label", "fidelity_guarantee_total_staff_label",
   "overseas_carrying_label", "sum_assured_limit_label", "public_exhibitions_label",
   "risk_location_address_label", "authorized_company_name_label",
   "description_label", "year_of_claim_label", "amount_of_claim_label",
   "business_name_label", "mobile_number_label", "mailing_address_label",
   "office_telephone_label", "person_in_charge_label", "correspondence_email_label",
   "business_registration_label", "property_label", "risk_address_label",
   "maximum_value_kept_as_display_at_during_business_hours_aw_label",
   "maximum_value_kept_as_display_at_during_business_hours_1ar_label",
   "maximum_value_kept_as_display_at_during_business_hours_1pd_label",
   "maximum_value_kept_as_display_at_during_business_hours_aws_label",
   "maximum_value_kept_as_display_at_during_after_business_hours_aw_label",
   "maximum_value_kept_as_display_at_during_after_business_hours_1ar_label",
   "maximum_value_kept_as_display_at_during_after_business_hours_1pd_label",
   "maximum_value_kept_as_display_at_during_after_business_hours_aws_label",
   "maximum_stock_in_premises_label", "value_of_stock_out_of_safe_label",
   "maximum_stock_during_transit_label", "maximum_cash_in_premises_label",
   "maximum_foreign_currency_label", "value_of_cash_in_premise_label",
   "value_of_pledged_stock_in_premise_label",
   "value_of_non_pledged_stock_in_premise_label",
   "maximum_stock_foreign_currency_in_premise_label",
   "maximum_stock_foreign_currency_in_transit_label",
   "value_of_stock_in_transit_label"]

/-- Explicit field name → decode map routing (exact match on field name). -/
def FIELD_DECODE_TABLE : List (String × List (String × String)) :=
  [("nature_of_business_label", BUSINESS_TYPE_MAP),
   ("businesstype_id_label", BUSINESS_TYPE_MAP),
   ("industry_id_label", INDUSTRY_MAP),
   ("premise_type_label", PREMISE_TYPE_MAP),
   ("roof_materials_label", MATERIAL_MAP),
   ("wall_materials_label", MATERIAL_MAP),
   ("floor_materials_label", MATERIAL_MAP),
   ("recording_label", YES_NO_MAP),
   ("type_of_back_up_label", CCTV_BACKUP_MAP),
   ("cctv_maintenance_contract_label", YES_NO_MAP),
   ("additional_capability_label", CCTV_CAPABILITY_MAP),
   ("retained_period_of_cctv_recording_label", CCTV_RETENTION_MAP),
   ("door_access_label", DOOR_ACCESS_MAP),
   ("rear_door_label", REAR_DOOR_MAP),
   ("main_door_details_label", DOOR_MATERIAL_MAP),
   ("inner_door_details_label", DOOR_MATERIAL_MAP),
   ("inner_door_iron_glass_label", YES_NO_MAP),
   ("inner_door_iron_wooden_label", YES_NO_MAP),
   ("main_door_roll_and_iron_wood_label", ROLLER_SHUTTER_MAP),
   ("rear_door_roll_and_iron_wood_label", ROLLER_SHUTTER_MAP),
   ("main_door_roll_and_iron_glass_label", ROLLER_SHUTTER_MAP),
   ("do_you_have_alarm_label", YES_NO_MAP),
   ("connection_type_label", ALARM_CONNECTION_MAP),
   ("type_of_alarm_system_label", ALARM_TYPE_MAP),
   ("under_maintenance_contract_label", YES_NO_MAP),
   ("central_monitoring_stations_label", YES_NO_MAP),
   ("safe_time_locking_label", YES_NO_MAP),
   ("grade_label", SAFE_GRADE_MAP),
   ("certified_label", YES_NO_MAP),
   ("key_combination_code_or_both_label", KEY_COMBINATION_MAP),
   ("key_and_combination_code_held_by_separate_personnel_label", YES_NO_MAP),
   ("do_you_have_a_strong_room_label", YES_NO_MAP),
   ("time_locking_label", YES_NO_MAP),
   ("wall_showcase_thickness_label", SHOWCASE_THICKNESS_MAP),
   ("do_you_have_wall_showcase_label", YES_NO_MAP),
   ("wall_showcases_are_protected_by_label", SHOWCASE_PROTECTION_MAP),
   ("counter_showcase_thickness_label", COUNTER_THICKNESS_MAP),
   ("do_you_have_counter_showcase_label", YES_NO_MAP),
   ("counter_showcases_are_protected_by_label", COUNTER_PROTECTION_MAP),
   ("rear_counter_showcase_are_protected_by_label", REAR_COUNTER_PROTECTION_MAP),
   ("thickness_of_counters_label", COUNTER_THICKNESS_MAP),
   ("dw_counter_showcases_are_protected_by_label", DW_COUNTER_PROTECTION_MAP),
   ("do_you_have_display_window_label", YES_NO_MAP),
   ("display_window_protected_by_label", SHOWCASE_PROTECTION_MAP),
   ("display_window_thickness_label", SHOWCASE_THICKNESS_MAP),
   ("rear_display_window_protected_by_label", SHOWCASE_PROTECTION_MAP),
   ("rear_display_window_thickness_label", SHOWCASE_THICKNESS_MAP),
   ("usage_of_jaguar_transit_label", YES_NO_MAP),
   ("do_you_use_armoured_vehicle_label", YES_NO_MAP),
   ("do_you_use_guards_at_premise_label", YES_NO_MAP),
   ("installed_gps_tracker_in_transit_bags_label", YES_NO_MAP),
   ("do_you_use_armed_guards_during_transit_label", YES_NO_MAP),
   ("installed_gps_tracker_in_transit_vehicles_label", YES_NO_MAP),
   ("records_maintained_in_label", RECORDS_MAP),
   ("do_you_keep_detailed_records_of_stock_movements_label", YES_NO_MAP),
   ("three_piece_rule_label", YES_NO_MAP),
   ("the_nearest_police_station_label", POLICE_DISTANCE_MAP),
   ("standard_operating_procedure_label", YES_NO_MAP),
   ("background_checks_for_all_employees_label", BACKGROUND_CHECK_MAP),
   ("how_often_is_the_stock_check_carried_out_label", STOCK_CHECK_MAP),
   ("director_house_question_label", YES_NO_MAP),
   ("director_house_question_cctv_label", YES_NO_MAP),
   ("director_house_question_safe_label", YES_NO_MAP),
   ("director_house_question_burglar_system_label", YES_NO_MAP),
   ("fidelity_guarantee_insurance_add_coverage_label", YES_NO_MAP),
   ("exhibtion_coverage_question_label", YES_NO_MAP),
   ("outward_entrustment_question_label", YES_NO_MAP),
   ("international_coverage_question_label", YES_NO_MAP),
   ("exhibition_insurance_question_label", EXHIBITION_INSURANCE_MAP),
   ("destination_airport_label", DESTINATION_AIRPORT_MAP),
   ("claim_history_label", CLAIM_STATUS_MAP),
   ("shop_lifting_label", YES_NO_MAP)]

/-- Association-list lookup (Python `dict.get`). -/
def mapGet (m : List (String × String)) (k : String) : Option String :=
  (m.find? (fun kv => kv.1 = k)).map (·.2)

/-- `decode_field(field_name, value)` from src/mappings.py, for string values
(the ingestion pipeline always passes `str(value)`). The Python identity test
`decode_map in (BUSINESS_TYPE_MAP, INDUSTRY_MAP)` is modelled as equality with
those two maps. -/
def decode_field (field_name value : String) : String :=
  if value = "" then ""
  else
    let value_str := pyStrip value
    if field_name ∈ PASSTHROUGH_FIELDS then value_str
    else
      match (FIELD_DECODE_TABLE.find? (fun kv => kv.1 = field_name)).map (·.2) with
      | some decode_map =>
        match mapGet decode_map value_str with
        | some decoded => decoded
        | none =>
          if (decode_map = BUSINESS_TYPE_MAP || decode_map = INDUSTRY_MAP) &&
              pyIsDigit value_str then
            "Unknown (" ++ value_str ++ ")"
          else value_str
      | none => value_str

/-! ### Data model (src/query_parser.py ParsedQuery, src/query_executor.py QueryResult,
and the metadata chunks built in main.build_index) -/

/-- One metadata chunk (one section of one proposal), as built at ingestion:
raw `fields`, pre-decoded `decoded_fields`, rendered `text`, and the top-level
attributes the executor consults. A missing `quote_id` key is `none`;
`sectionName` models the Python `section` key (a reserved word in Lean). -/
structure Chunk where
  quote_id : Option String
  sectionName : String
  text : String
  fields : List (String × String)
  decoded_fields : List (String × String)
  risk_location : String
  user_name : String
  deriving DecidableEq, Repr

/-- `ParsedQuery` from src/query_parser.py. -/
structure ParsedQuery where
  intent : String
  target_fields : List String
  filter_field : Option String
  filter_value : Option String
  filter_contains : Option String
  quote_id : Option String
  output_fields : List String
  understood_question : String
  raw_query : String
  parse_success : Bool
  deriving DecidableEq, Repr

/-- One result-row dict produced by the executor. The source uses plain dicts
whose keys vary slightly by branch (for example `matched_field`/`matched_value`
in the general branch); all values involved are modelled by the fields below,
with `""` for keys a branch does not set. -/
structure Row where
  quote_id : String := ""
  business_name : String := ""
  field : String := ""
  value : String := ""
  sectionName : String := ""
  matched_text : String := ""
  deriving DecidableEq, Repr

/-- `QueryResult` from src/query_executor.py. -/
structure QueryResult where
  success : Bool
  data : List Row
  count : Nat
  summary : String
  details : List String
  deriving DecidableEq, Repr

/-! ### Field-match scoring (src/query_executor.py `_field_match_score`;
src/answer_formatter.py contains a verbatim copy of the same function, so a
single definition embeds both). -/

/-- The noise-word set removed before computing word overlap. -/
def noiseWords : List String :=
  ["the", "a", "an", "of", "in", "for", "is", "do", "you", "label"]

/-- Normalization applied to both field names:
`x.lower().replace("_label", "").replace("_", " ")`. -/
def normFieldName (s : String) : String :=
  pyReplace (pyReplace (pyLower s) "_label" "") "_" " "

/-- The significant-word set of a normalized name: `set(x.split()) - noise`. -/
def wordSetMinusNoise (s : String) : List String :=
  (pyWords s).dedup.filter (fun w => !(noiseWords.contains w))

/-- Size of the shared significant-word set of two field names
(`len(req_words & act_words)` after normalization). -/
def fieldOverlap (requested actual : String) : Nat :=
  ((wordSetMinusNoise (normFieldName requested)).filter
    (fun w => (wordSetMinusNoise (normFieldName actual)).contains w)).length

/-- `_field_match_score(requested_field, actual_field)`. -/
def _field_match_score (requested_field actual_field : String) : Nat :=
  let req := normFieldName requested_field
  let act := normFieldName actual_field
  if req = act then 100
  else if pyContains act req || pyContains req act then
    50 + min req.length act.length
  else
    let req_words := wordSetMinusNoise req
    let act_words := wordSetMinusNoise act
    if req_words.isEmpty then 0
    else
      let overlap := (req_words.filter (fun w => act_words.contains w)).length
      if 0 < overlap then overlap * 10 else 0

/-! ### src/query_executor.py — SmartQueryExecutor

The executor object holds only the loaded metadata list, so every method is
modelled as a function taking `metadata : List Chunk` first. -/

/-- `_get_search_fields`: raw fields overridden by decoded fields (decoded
wins; skipped when the decoded dict is empty/falsy). -/
def _get_search_fields (c : Chunk) : List (String × String) :=
  if c.decoded_fields.isEmpty then c.fields
  else dictUpdate c.fields c.decoded_fields

/-- The `best_score`/`best_field_name`/`best_value` scan the executor performs
for one requested field over a search dict (strictly-greater update keeps the
first maximum, as in the source). -/
def bestFieldMatch (requested : String) (search_fields : List (String × String)) :
    Nat × Option (String × String) :=
  search_fields.foldl
    (fun acc kv =>
      let score := _field_match_score requested kv.1
      if acc.1 < score then (score, some kv) else acc)
    (0, none)

/-- Per-chunk body of the `_execute_lookup` loop (the fallback to
`target_fields` tests the *global* results list accumulated so far, exactly as
in the source). -/
def lookupChunkStep (parsed : ParsedQuery) (results : List Row) (c : Chunk) : List Row :=
  if c.quote_id ≠ parsed.quote_id then results
  else
    let search_fields := _get_search_fields c
    if search_fields.isEmpty then results
    else
      let qid := parsed.quote_id.getD ""
      let results := parsed.output_fields.foldl
        (fun rs output_field =>
          let best := bestFieldMatch output_field search_fields
          match best.2 with
          | some kv =>
            if 10 ≤ best.1 then rs ++ [{ quote_id := qid, field := kv.1, value := kv.2 }]
            else rs
          | none => rs) results
      if results.isEmpty ∧ ¬parsed.target_fields.isEmpty then
        parsed.target_fields.foldl
          (fun rs target =>
            let best := bestFieldMatch target search_fields
            match best.2 with
            | some kv =>
              if 10 ≤ best.1 then rs ++ [{ quote_id := qid, field := kv.1, value := kv.2 }]
              else rs
            | none => rs) results
      else results

/-- Deduplication by `(quote_id, field)`, keeping first occurrences. -/
def dedupRows : List Row → List (String × String) → List Row
  | [], _ => []
  | r :: rest, seen =>
    if (r.quote_id, r.field) ∈ seen then dedupRows rest seen
    else r :: dedupRows rest ((r.quote_id, r.field) :: seen)

/-- Detail line for a lookup row:
`f"{field.replace('_label','').replace('_',' ').title()}: {value}"`. -/
def lookupDetail (r : Row) : String :=
  pyTitle (pyReplace (pyReplace r.field "_label" "") "_" " ") ++ ": " ++ r.value

/-- `_execute_lookup`. -/
def _execute_lookup (metadata : List Chunk) (parsed : ParsedQuery) : QueryResult :=
  let results := metadata.foldl (lookupChunkStep parsed) []
  let unique_results := dedupRows results []
  if ¬unique_results.isEmpty then
    { success := true, data := unique_results, count := unique_results.length,
      summary := "Found " ++ toString unique_results.length ++ " field(s) for " ++
        parsed.quote_id.getD "",
      details := unique_results.map lookupDetail }
  else
    { success := false, data := [], count := 0,
      summary := "No matching fields found for " ++ parsed.quote_id.getD "",
      details := [] }

/-- Append a name to the known-name collection unless already present
(Python set insertion, modelled in first-occurrence scan order). -/
def addIfAbsent (names : List String) (v : String) : List String :=
  if v ∈ names then names else names ++ [v]

/-- The known person/business names collected by the executor's
`_extract_entity_from_query` from the whole metadata. -/
def execKnownNames (metadata : List Chunk) : List String :=
  metadata.foldl
    (fun names c =>
      let names := if c.user_name ≠ "" then addIfAbsent names (pyStrip c.user_name) else names
      (_get_search_fields c).foldl
        (fun ns kv =>
          if pyContains (pyLower kv.1) "business_name" ∨
              pyContains (pyLower kv.1) "person_in_charge" then
            let val := pyStrip kv.2
            if val ≠ "" ∧ pyLower val ∉ ["unknown", "none", ""] then addIfAbsent ns val
            else ns
          else ns) names)
    []

/-- Executor `_extract_entity_from_query`: longest known name (stable
length-descending order) whose lowercase form occurs in the lowercased query.
Python sorts a set here, so the order among equal-length names is the
implementation's scan order. -/
def _extract_entity_exec (metadata : List Chunk) (query : String) : Option String :=
  let query_lower := pyLower query
  (sortByLenDesc (execKnownNames metadata)).find?
    (fun name => pyContains query_lower (pyLower name))

/-- `_should_entity_lookup`: count/list/general queries rerouted to entity
lookup when a known entity name appears in `filter_contains` or the raw query
and a non-name data field is requested. -/
def _should_entity_lookup (metadata : List Chunk) (parsed : ParsedQuery) : Bool :=
  let data_fields := (parsed.output_fields ++ parsed.target_fields).filter
    (fun f => !(pyContains (pyLower f) "business_name") &&
              !(pyContains (pyLower f) "person_in_charge"))
  if data_fields.isEmpty then false
  else
    (truthy parsed.filter_contains &&
      (_extract_entity_exec metadata (parsed.filter_contains.getD "")).isSome) ||
    (!(parsed.raw_query == "") &&
      (_extract_entity_exec metadata parsed.raw_query).isSome)

/-- `_get_field_value`: first field of the chunk whose name contains the
pattern; otherwise the first such field of another chunk with the same
quote id; otherwise `"Unknown"`. -/
def _get_field_value (metadata : List Chunk) (c : Chunk) (field_pattern : String) : String :=
  match (_get_search_fields c).find?
      (fun kv => pyContains (pyLower kv.1) (pyLower field_pattern)) with
  | some kv => kv.2
  | none =>
    match metadata.findSome?
        (fun oc =>
          if oc.quote_id = c.quote_id ∧ oc ≠ c then
            ((_get_search_fields oc).find?
              (fun kv => pyContains (pyLower kv.1) (pyLower field_pattern))).map (·.2)
          else none) with
    | some v => v
    | none => "Unknown"

/-- Step 1 of `_execute_entity_lookup`: match one chunk against the searched
entity name, extending the `(quote_id, business_name)` list and seen set. -/
def entityMatchStep (metadata : List Chunk) (search_name : String)
    (acc : List (String × String) × List String) (c : Chunk) :
    List (String × String) × List String :=
  match c.quote_id with
  | none => acc
  | some qid =>
    if qid = "" ∨ qid ∈ acc.2 then acc
    else
      let search_fields := _get_search_fields c
      let user_name := pyStrip (pyLower c.user_name)
      let found := pyContains user_name search_name || pyContains search_name user_name
      let found := found || search_fields.any
        (fun kv =>
          (pyContains (pyLower kv.1) "person_in_charge" ||
           pyContains (pyLower kv.1) "business_name") &&
          (let vl := pyStrip (pyLower kv.2)
           pyContains vl search_name || pyContains search_name vl))
      if found then
        (acc.1 ++ [(qid, _get_field_value metadata c "business_name")], acc.2 ++ [qid])
      else acc

/-- Step 2 of `_execute_entity_lookup` for one matched quote: retrieve the
requested output fields across that quote's chunks (membership of the
*requested* name is tested against the keys of the retrieved dict, which hold
*actual* field names — exactly as in the source). -/
def entityRetrieve (metadata : List Chunk) (output_fields : List String)
    (match_qid : String) : List (String × String) :=
  metadata.foldl
    (fun ret ch =>
      if ch.quote_id = some match_qid then
        let search_fields := _get_search_fields ch
        output_fields.foldl
          (fun ret2 out_field =>
            if dictHasKey ret2 out_field then ret2
            else
              let best := bestFieldMatch out_field search_fields
              match best.2 with
              | some kv => if 10 ≤ best.1 then dictInsert ret2 kv.1 kv.2 else ret2
              | none => ret2) ret
      else ret)
    []

/-- Detail line of an entity-lookup result row. -/
def entityDetail (r : Row) : String :=
  r.business_name ++ " (" ++ r.quote_id ++ "): " ++
    pyTitle (pyReplace (pyReplace r.field "_label" "") "_" " ") ++ " = " ++ r.value

/-- `_execute_general`: token-overlap scan across decoded field values and
field names. -/
def isWordChar (c : Char) : Bool := c.isAlphanum || c = '_'

/-- Maximal runs of regex word characters. -/
def wordRunsAux : List Char → List Char → List (List Char)
  | [], acc => if acc.isEmpty then [] else [acc.reverse]
  | c :: rest, acc =>
    if isWordChar c then wordRunsAux rest (c :: acc)
    else if acc.isEmpty then wordRunsAux rest [] else acc.reverse :: wordRunsAux rest []

/-- Matches of `\b[a-zA-Z]{3,}\b`: maximal word-character runs that are fully
alphabetic and of length at least 3. -/
def alphaTokens (s : String) : List String :=
  ((wordRunsAux s.data []).filter (fun r => 3 ≤ r.length ∧ r.all Char.isAlpha)).map
    (fun r => ⟨r⟩)

def generalIgnoreWords : List String :=
  ["what", "how", "many", "which", "the", "are", "have", "has", "with", "and",
   "for", "their", "names", "all"]

def _execute_general (metadata : List Chunk) (parsed : ParsedQuery) : QueryResult :=
  let search_terms :=
    (if truthy parsed.filter_contains then [pyLower (parsed.filter_contains.getD "")] else []) ++
    (alphaTokens (pyLower parsed.raw_query)).filter (fun w => !(generalIgnoreWords.contains w))
  let scan := metadata.foldl
    (fun (acc : List String × List Row) c =>
      match c.quote_id with
      | none => acc
      | some qid =>
        if qid = "" ∨ qid ∈ acc.1 then acc
        else
          let search_fields := _get_search_fields c
          if search_fields.isEmpty then acc
          else
            match search_fields.find?
                (fun kv => search_terms.any
                  (fun term => pyContains (pyLower kv.2) term || pyContains (pyLower kv.1) term)) with
            | some kv =>
              (acc.1 ++ [qid],
               acc.2 ++ [{ quote_id := qid,
                           business_name := _get_field_value metadata c "business_name",
                           field := kv.1, value := kv.2 }])
            | none => acc)
    ([], [])
  let matching_data := scan.2
  if ¬matching_data.isEmpty then
    { success := true, data := matching_data, count := matching_data.length,
      summary := "Found " ++ toString matching_data.length ++ " matching proposal(s)",
      details := matching_data.map (fun d => d.business_name ++ " (" ++ d.quote_id ++ ")") }
  else
    { success := false, data := [], count := 0, summary := "No matching data found",
      details := [] }

/-- `_execute_entity_lookup`. -/
def _execute_entity_lookup (metadata : List Chunk) (parsed : ParsedQuery) : QueryResult :=
  let sn1 := if truthy parsed.filter_contains then
      pyStrip (pyLower (parsed.filter_contains.getD "")) else ""
  let search_name :=
    if sn1 ≠ "" then sn1
    else match _extract_entity_exec metadata parsed.raw_query with
      | some e => pyStrip (pyLower e)
      | none => ""
  if search_name = "" then _execute_general metadata parsed
  else
    let output_fields := parsed.output_fields
    let output_fields :=
      if truthy parsed.filter_field ∧ ¬truthy parsed.filter_value ∧
          parsed.filter_field.getD "" ∉ output_fields then
        output_fields ++ [parsed.filter_field.getD ""]
      else output_fields
    let output_fields := parsed.target_fields.foldl
      (fun ofs tf => if tf ∉ ofs then ofs ++ [tf] else ofs) output_fields
    if output_fields.isEmpty then _execute_general metadata parsed
    else
      let matched := (metadata.foldl (entityMatchStep metadata search_name) ([], [])).1
      if matched.isEmpty then
        { success := false, data := [], count := 0,
          summary := "No proposal found for \x27" ++ pyShowOpt parsed.filter_contains ++ "\x27",
          details := [] }
      else
        let results := matched.foldl
          (fun rs mq =>
            let retrieved := entityRetrieve metadata output_fields mq.1
            if ¬retrieved.isEmpty then
              rs ++ retrieved.map (fun kv =>
                { quote_id := mq.1, business_name := mq.2, field := kv.1, value := kv.2 })
            else
              rs ++ [{ quote_id := mq.1, business_name := mq.2,
                       field := pyJoin ", " output_fields, value := "Not found" }])
          []
        if ¬results.isEmpty then
          { success := true, data := results, count := results.length,
            summary := "Found data for " ++ toString matched.length ++ " matching proposal(s)",
            details := results.map entityDetail }
        else
          { success := false, data := [], count := 0,
            summary := "No matching fields found for \x27" ++
              pyShowOpt parsed.filter_contains ++ "\x27",
            details := [] }

def yesCodes : List String := ["yes", "001", "true", "1"]

def noCodes : List String := ["no", "002", "false", "2", "0"]

/-- Value condition of the count filter on `filter_field`/`filter_value`
(yes/no code normalization, exact equality, or substring for long values). -/
def countValueMatches (expected value_lower : String) : Bool :=
  (yesCodes.contains expected && yesCodes.contains value_lower) ||
  (noCodes.contains expected && noCodes.contains value_lower) ||
  value_lower = expected ||
  (2 < expected.length && pyContains value_lower expected)

/-- The `filter_contains` hit test of one count-loop iteration: chunk text,
then decoded field values, then the truthy top-level attributes. -/
def countContainsHit (parsed : ParsedQuery) (c : Chunk) : Bool :=
  let search_term := pyLower (parsed.filter_contains.getD "")
  let found := pyContains (pyLower c.text) search_term
  let found := found || (_get_search_fields c).any (fun kv => pyContains (pyLower kv.2) search_term)
  let found := found ||
    ([("risk_location", c.risk_location), ("user_name", c.user_name)].any
      (fun tkv => tkv.2 ≠ "" && pyContains (pyLower tkv.2) search_term))
  found

/-- First decoded field hit of the count-loop `filter_field`/`filter_value`
test (the loop breaks on the first field whose name contains the filter key
and whose value satisfies the normalized match). -/
def countFieldHit (parsed : ParsedQuery) (c : Chunk) : Option (String × String) :=
  let expected := pyStrip (pyLower (parsed.filter_value.getD ""))
  let filter_key := pyReplace (pyLower (parsed.filter_field.getD "")) "_label" ""
  (_get_search_fields c).find?
    (fun kv =>
      pyContains (pyReplace (pyLower kv.1) "_label" "") filter_key &&
      countValueMatches expected (pyStrip (pyLower kv.2)))

/-- Top-level attribute hit of the count-loop `filter_field`/`filter_value`
test. -/
def countTopHit (parsed : ParsedQuery) (c : Chunk) : Option (String × String) :=
  let expected := pyStrip (pyLower (parsed.filter_value.getD ""))
  let filter_key := pyReplace (pyLower (parsed.filter_field.getD "")) "_label" ""
  [("risk_location", c.risk_location), ("user_name", c.user_name)].find?
    (fun tkv =>
      pyContains (pyLower tkv.1) filter_key &&
      pyContains (pyStrip (pyLower tkv.2)) expected)

/-- Whether one chunk satisfies the count query's filter (the decision made by
one iteration of the `_execute_count` loop, independent of quote-id
bookkeeping): with a truthy `filter_contains`, the substring scan; else with a
truthy `filter_field`+`filter_value` pair, the normalized field/top-level
match; else no chunk matches. -/
def chunkCountMatches (parsed : ParsedQuery) (c : Chunk) : Bool :=
  if truthy parsed.filter_contains then countContainsHit parsed c
  else if truthy parsed.filter_field ∧ truthy parsed.filter_value then
    (countFieldHit parsed c).isSome || (countTopHit parsed c).isSome
  else false

/-- Per-chunk body of the `_execute_count` loop. -/
def countChunkStep (metadata : List Chunk) (parsed : ParsedQuery)
    (acc : List String × List Row) (c : Chunk) : List String × List Row :=
  match c.quote_id with
  | none => acc
  | some qid =>
    if qid = "" ∨ qid ∈ acc.1 then acc
    else
      if truthy parsed.filter_contains then
        if countContainsHit parsed c then
          (acc.1 ++ [qid],
           acc.2 ++ [{ quote_id := qid,
                       business_name := _get_field_value metadata c "business_name",
                       sectionName := c.sectionName,
                       matched_text := pyTake 100 (pyLower c.text) }])
        else acc
      else if truthy parsed.filter_field ∧ truthy parsed.filter_value then
        match countFieldHit parsed c with
        | some kv =>
          (acc.1 ++ [qid],
           acc.2 ++ [{ quote_id := qid,
                       business_name := _get_field_value metadata c "business_name",
                       field := kv.1, value := kv.2 }])
        | none =>
          match countTopHit parsed c with
          | some tkv =>
            (acc.1 ++ [qid],
             acc.2 ++ [{ quote_id := qid,
                         business_name := _get_field_value metadata c "business_name",
                         field := tkv.1, value := tkv.2 }])
          | none => acc
      else acc

/-- `_execute_count`. -/
def _execute_count (metadata : List Chunk) (parsed : ParsedQuery) : QueryResult :=
  let scan := metadata.foldl (countChunkStep metadata parsed) ([], [])
  let count := scan.1.length
  if 0 < count then
    { success := true, data := scan.2, count := count,
      summary := toString count ++ " proposal(s) match the criteria",
      details := scan.2.map (fun d => d.business_name ++ " (" ++ d.quote_id ++ ")") }
  else
    { success := true, data := [], count := 0,
      summary := "0 proposals match the criteria", details := [] }

/-- `_execute_list`: a count whose details are re-rendered as
`"name (quote_id)"` lines. -/
def _execute_list (metadata : List Chunk) (parsed : ParsedQuery) : QueryResult :=
  let result := _execute_count metadata parsed
  if result.success ∧ ¬result.data.isEmpty then
    { result with details := result.data.map (fun d => d.business_name ++ " (" ++ d.quote_id ++ ")") }
  else result

/-- Digit-run to natural number. -/
def natOfDigits (cs : List Char) : Nat :=
  cs.foldl (fun n c => n * 10 + (c.toNat - 48)) 0

/-- Unsigned decimal parse (Python `float` restricted to the plain
`digits[.digits]` forms that occur in the data; exponent/infinity forms are
not modelled and are not exercised by any claim). -/
def parseUnsignedQ (cs : List Char) : Option ℚ :=
  let intPart := cs.takeWhile Char.isDigit
  let rest := cs.drop intPart.length
  match rest with
  | [] => if intPart.isEmpty then none else some (natOfDigits intPart : ℚ)
  | '.' :: frac =>
    if frac.all Char.isDigit ∧ ¬(intPart.isEmpty ∧ frac.isEmpty) then
      some ((natOfDigits intPart : ℚ) + (natOfDigits frac : ℚ) / ((10 : ℚ) ^ frac.length))
    else none
  | _ => none

/-- `_parse_numeric`: strip thousands separators and currency markers, then
parse as a number. -/
def _parse_numeric (value : String) : Option ℚ :=
  let s := pyStrip (pyReplace (pyReplace (pyReplace value "," "") "RM" "") "$" "")
  match s.data with
  | '-' :: rest => (parseUnsignedQ rest).map Neg.neg
  | '+' :: rest => parseUnsignedQ rest
  | cs => parseUnsignedQ cs

/-- Stable insertion for the compare sort (ascending, or descending when
`isMax`; equal keys keep their original order, like Python's stable sort). -/
def insertByKey (isMax : Bool) (x : Row × ℚ) : List (Row × ℚ) → List (Row × ℚ)
  | [] => [x]
  | y :: ys =>
    if (if isMax then y.2 < x.2 else x.2 < y.2) then x :: y :: ys
    else y :: insertByKey isMax x ys

def sortByKey (isMax : Bool) (l : List (Row × ℚ)) : List (Row × ℚ) :=
  l.foldl (fun acc x => insertByKey isMax x acc) []

/-- `_execute_compare`: numeric extremes over raw (undecoded) fields matching
the target names at score ≥ 10. -/
def _execute_compare (metadata : List Chunk) (parsed : ParsedQuery) : QueryResult :=
  let values := metadata.foldl
    (fun acc c =>
      match c.quote_id with
      | none => acc
      | some qid =>
        if qid = "" then acc
        else
          parsed.target_fields.foldl
            (fun acc2 target =>
              c.fields.foldl
                (fun acc3 kv =>
                  if 10 ≤ _field_match_score target kv.1 then
                    match _parse_numeric kv.2 with
                    | some num =>
                      let r : Row := { quote_id := qid,
                                       business_name := _get_field_value metadata c "business_name",
                                       field := kv.1, value := kv.2 }
                      acc3 ++ [(r, num)]
                    | none => acc3
                  else acc3) acc2) acc)
    []
  if ¬values.isEmpty then
    let rq := pyLower parsed.raw_query
    let is_max := pyContains rq "highest" || pyContains rq "maximum" || pyContains rq "most"
    let sorted := sortByKey is_max values
    match sorted with
    | [] =>
      { success := false, data := [], count := 0,
        summary := "Could not find comparable values", details := [] }
    | best :: _ =>
      let word := if is_max then "highest" else "lowest"
      { success := true, data := [best.1], count := 1,
        summary := "The " ++ word ++ " value is " ++ best.1.value ++ " for " ++
          best.1.business_name ++ " (" ++ best.1.quote_id ++ ")",
        details := [best.1.business_name ++ " (" ++ best.1.quote_id ++ "): " ++ best.1.value] }
  else
    { success := false, data := [], count := 0,
      summary := "Could not find comparable values", details := [] }

/-- `SmartQueryExecutor.execute`: intent routing. -/
def execute (metadata : List Chunk) (parsed : ParsedQuery) : QueryResult :=
  let intent := pyStrip (pyLower parsed.intent)
  if intent = "lookup" ∧ truthy parsed.quote_id then _execute_lookup metadata parsed
  else if intent = "lookup" ∧ ¬truthy parsed.quote_id then _execute_entity_lookup metadata parsed
  else if ¬truthy parsed.quote_id ∧ _should_entity_lookup metadata parsed then
    _execute_entity_lookup metadata parsed
  else if intent = "count" then _execute_count metadata parsed
  else if intent = "list" then _execute_list metadata parsed
  else if intent = "compare" then _execute_compare metadata parsed
  else _execute_general metadata parsed

/-! ### src/query_parser.py — QueryParser

The long-lived parser object carries the known entity catalogs and the
conversation history; this mutable state is modelled by `ParserState`.

The model-assisted step (build prompt, `llm.generate`, regex JSON extraction,
`json.loads`, schema reads) is abstracted as an oracle of type
`Option RawParsed`: `none` stands for any failure anywhere inside the
enclosing `try` (no JSON in the response, a JSON decode error, or an exception
while post-processing), which the source catches and routes to
`_fallback_parse`; `some d` stands for a successfully extracted JSON object
with the schema's field types. Universally quantifying over the oracle covers
every possible language-model response. The prompt text itself
(`AVAILABLE_FIELDS`/`QUERY_PARSE_PROMPT`) only feeds that oracle and is not
rendered here. -/

/-- One stored conversation turn. -/
structure Turn where
  query : String
  intent : String
  filter_field : Option String
  filter_value : Option String
  filter_contains : Option String
  target_fields : List String
  output_fields : List String
  understood_question : String
  answer_preview : String
  deriving DecidableEq, Repr, Inhabited

/-- The mutable per-session parser state. -/
structure ParserState where
  known_persons : List String
  known_businesses : List String
  conversation_history : List Turn
  deriving Repr, Inhabited

/-- The JSON object extracted from a successful model-assisted parse, with
the schema's field shapes (`json.loads` output read with `.get`). -/
structure RawParsed where
  intent : Option String := none
  target_fields : List String := []
  filter_field : Option String := none
  filter_value : Option String := none
  filter_contains : Option String := none
  quote_id : Option String := none
  output_fields : List String := []
  understood_question : Option String := none
  deriving DecidableEq, Repr, Inhabited

/-- Hardcoded fallback person catalog (`_use_fallback_entities`). -/
def FALLBACK_PERSONS : List String :=
  ["Somesh Das", "Rohan Mehta", "Rahul Mehta", "Ankit Verma",
   "Aamir Khan", "Suresh Kumar", "Naveen Iyer", "Kunal Shah",
   "Rakesh Pillai", "Farhan Ali", "Pranav Joshi", "Saad Rahman",
   "Vikram Nair", "Ashwin Patel", "Irfan Malik"]

/-- Hardcoded fallback business catalog (`_use_fallback_entities`). -/
def FALLBACK_BUSINESSES : List String :=
  ["Ja Assure IN", "FinSecure Money Services", "Mehta Pawn Services",
   "LuxGold Jewellers", "Global Money Exchange", "Secure Pawn Brokers",
   "Rapid FX Money Exchange", "Heritage Gold & Jewels",
   "Heritage Gold and Jewels", "Trust Pawn Brokers", "City FX Exchange",
   "Royal Gems & Jewels", "Royal Gems and Jewels", "Metro FX Exchange",
   "Prime Pawn Services", "Sunrise Jewel House", "Harbor FX Services"]

/-- Parser `_extract_entity_from_query`: person catalog first, then business
catalog, then a partial match on the first two words of a business name
(which returns the *full* catalog name). -/
def qpExtractEntity (ps : ParserState) (query : String) : Option String :=
  let query_lower := pyLower query
  match ps.known_persons.find? (fun n => pyContains query_lower (pyLower n)) with
  | some n => some n
  | none =>
    match ps.known_businesses.find? (fun n => pyContains query_lower (pyLower n)) with
    | some n => some n
    | none =>
      ps.known_businesses.find?
        (fun n =>
          let parts := pyWords (pyLower n)
          2 ≤ parts.length && pyContains query_lower (pyJoin " " (parts.take 2)))

def OUT_OF_SCOPE_INDICATORS : List String :=
  ["singapore", "indonesia", "thailand", "philippines", "vietnam",
   "average", "per year", "annually", "total across all",
   "predict", "forecast", "recommend", "should i", "which is better",
   "compare to industry", "benchmark", "market rate",
   "credit score", "credit rating", "financial rating",
   "who approved", "underwriter", "actuary",
   "monthly premium", "annual premium", "calculate premium"]

def _is_out_of_scope (query : String) : Bool :=
  OUT_OF_SCOPE_INDICATORS.any (fun ind => pyContains (pyLower query) ind)

/-- `add_to_history`: append a parsed turn, keep only the last 5. -/
def mkTurn (query : String) (parsed : ParsedQuery) (answer : String) : Turn :=
  { query := query, intent := parsed.intent, filter_field := parsed.filter_field,
    filter_value := parsed.filter_value, filter_contains := parsed.filter_contains,
    target_fields := parsed.target_fields, output_fields := parsed.output_fields,
    understood_question := parsed.understood_question,
    answer_preview := pyTake 200 answer }

def add_to_history (hist : List Turn) (query : String) (parsed : ParsedQuery)
    (answer : String) : List Turn :=
  let h := hist ++ [mkTurn query parsed answer]
  if 5 < h.length then h.drop (h.length - 5) else h

/-- `add_raw_to_history`: append a degenerate turn with null filters, keep
only the last 5. -/
def mkRawTurn (query answer : String) : Turn :=
  { query := query, intent := "unknown", filter_field := none, filter_value := none,
    filter_contains := none, target_fields := [], output_fields := [],
    understood_question := query, answer_preview := pyTake 200 answer }

def add_raw_to_history (hist : List Turn) (query answer : String) : List Turn :=
  let h := hist ++ [mkRawTurn query answer]
  if 5 < h.length then h.drop (h.length - 5) else h

def LOCATION_INDICATORS : List String :=
  ["located in", "in penang", "in johor", "in kuala lumpur", "in selangor",
   "in sabah", "in kedah", "in perak", "in melaka", "in negeri", "in pahang",
   "in muar", "in taiping", "in ipoh", "in klang", "in seremban",
   "in kota kinabalu", "in george town", "in sungai petani", "in kuantan",
   "location", "located", "based in", "situated in"]

def _is_location_query (query : String) : Bool :=
  LOCATION_INDICATORS.any (fun ind => pyContains (pyLower query) ind)

/-- `strip("?.,!")` on both ends. -/
def isPunct4 (c : Char) : Bool := c = '?' || c = '.' || c = ',' || c = '!'

def pyStripChars (p : Char → Bool) (s : String) : String :=
  ⟨((s.data.dropWhile p).reverse.dropWhile p).reverse⟩

def contextNoiseWords : List String :=
  ["does", "do", "is", "what", "which", "how", "far", "often",
   "type", "of", "the", "a", "an", "for", "have", "use", "run",
   "business", "carry", "out", "keep", "detailed", "records",
   "standard", "operating", "procedure", "in", "place", "armed",
   "guards", "during", "transit", "background", "checks", "long",
   "retain", "cctv", "recordings", "safe", "grade", "nearest",
   "police", "station", "strong", "room", "door", "access", "backup",
   "and", "with", "their", "them", "that", "this", "from", "are",
   "has", "had", "its", "stock", "check", "movements", "contract",
   "maintenance", "used", "using", "get", "give", "tell", "show",
   "sop", "much", "many", "where", "when", "who",
   "proposals", "located", "based", "situated", "count", "number"]

/-- `_get_entity_from_query`: the first four significant punctuation-stripped
words of the query. -/
def _get_entity_from_query (query : String) : String :=
  let entity_words := ((pyWords (pyLower query)).map (pyStripChars isPunct4)).filter
    (fun w => !(contextNoiseWords.contains w) && 2 < w.length)
  pyJoin " " (entity_words.take 4)

/-- The suppress-inherited-filters decision of `_build_history_section`
(location queries never inherit; otherwise suppress when the current query's
significant tokens share no word with the last turn's filter target). -/
def shouldSuppressHistory (hist : List Turn) (current_query : String) : Bool :=
  if current_query ≠ "" ∧ ¬hist.isEmpty then
    if _is_location_query current_query then true
    else
      let last := hist.getLast?.getD default
      let last_contains := last.filter_contains.getD ""
      if last_contains ≠ "" then
        let current_words := (pyWords (pyLower (_get_entity_from_query current_query))).dedup
        let last_words := (pyWords (pyLower (_get_entity_from_query last_contains))).dedup
        ¬current_words.isEmpty ∧ ¬last_words.isEmpty ∧
          (current_words.filter (fun w => w ∈ last_words)).isEmpty
      else false
  else false

/-- The turn list `_build_history_section` actually renders into the prompt
(filters nulled out when suppression triggers). The rendered text feeds only
the oracle-abstracted model call. -/
def historyForPrompt (hist : List Turn) (current_query : String) : List Turn :=
  if shouldSuppressHistory hist current_query then
    hist.map (fun t => { t with filter_contains := none, filter_field := none,
                                filter_value := none })
  else hist

def followupPatterns : List String :=
  ["their names", "the names", "give names", "give me names",
   "list them", "show them", "what are they", "who are they",
   "give me their", "show their", "tell me their",
   "what are those", "which are those", "name them",
   "give the names", "show the names", "list the names",
   "what about their names", "and their names",
   "names please", "names?"]

def _is_followup_reference (hist : List Turn) (query : String) : Bool :=
  if hist.isEmpty then false
  else
    let query_lower := pyStrip (pyLower query)
    followupPatterns.any (fun p => pyContains query_lower p) ||
    ((pyWords query_lower).length ≤ 5 &&
      ["them", "their", "those", "these", "above", "names"].any
        (fun w => pyContains query_lower w))

/-- `_resolve_followup` (only called with a non-empty history). -/
def _resolve_followup (hist : List Turn) (query : String) : ParsedQuery :=
  let last := hist.getLast?.getD default
  { intent := "list", target_fields := last.target_fields,
    filter_field := last.filter_field, filter_value := last.filter_value,
    filter_contains := last.filter_contains, quote_id := none,
    output_fields := ["business_name_label"],
    understood_question :=
      "Follow-up: list names from previous query \x27" ++ last.query ++ "\x27",
    raw_query := query, parse_success := true }

/-- One entry of the deterministic-count phrase table:
phrase, field name, yes code, no code. -/
structure FeatureEntry where
  phrase : String
  field : String
  yesVal : String
  noVal : String
  deriving DecidableEq, Repr

/-- `FEATURE_MAP`, in source (insertion) order. -/
def FEATURE_MAP : List FeatureEntry :=
  [⟨"display window", "do_you_have_display_window_label", "001", "002"⟩,
   ⟨"have display window", "do_you_have_display_window_label", "001", "002"⟩,
   ⟨"has display window", "do_you_have_display_window_label", "001", "002"⟩,
   ⟨"window display", "do_you_have_display_window_label", "001", "002"⟩,
   ⟨"wall showcase", "do_you_have_wall_showcase_label", "001", "002"⟩,
   ⟨"counter showcase", "do_you_have_counter_showcase_label", "001", "002"⟩,
   ⟨"alarm", "do_you_have_alarm_label", "001", "002"⟩,
   ⟨"cctv maintenance", "cctv_maintenance_contract_label", "001", "002"⟩,
   ⟨"cctv recording", "recording_label", "001", "002"⟩,
   ⟨"strong room", "do_you_have_a_strong_room_label", "001", "002"⟩,
   ⟨"armoured vehicle", "do_you_use_armoured_vehicle_label", "001", "002"⟩,
   ⟨"armed guards", "do_you_use_armed_guards_during_transit_label", "001", "002"⟩,
   ⟨"guards at premise", "do_you_use_guards_at_premise_label", "001", "002"⟩,
   ⟨"gps tracker", "installed_gps_tracker_in_transit_vehicles_label", "001", "002"⟩,
   ⟨"jaguar transit", "usage_of_jaguar_transit_label", "001", "002"⟩,
   ⟨"standard operating procedure", "standard_operating_procedure_label", "001", "002"⟩,
   ⟨"sop", "standard_operating_procedure_label", "001", "002"⟩,
   ⟨"stock records", "do_you_keep_detailed_records_of_stock_movements_label", "001", "002"⟩,
   ⟨"detailed records", "do_you_keep_detailed_records_of_stock_movements_label", "001", "002"⟩,
   ⟨"shoplifting", "shop_lifting_label", "1", "2"⟩,
   ⟨"shop lifting", "shop_lifting_label", "1", "2"⟩,
   ⟨"time locking", "time_locking_label", "001", "002"⟩,
   ⟨"central monitoring", "central_monitoring_stations_label", "001", "002"⟩,
   ⟨"alarm maintenance", "under_maintenance_contract_label", "001", "002"⟩,
   ⟨"fidelity guarantee", "fidelity_guarantee_insurance_add_coverage_label", "001", "002"⟩,
   ⟨"director house", "director_house_question_label", "001", "002"⟩,
   ⟨"background check", "background_checks_for_all_employees_label", "001", "002"⟩]

/-- Negation markers flipping the expected code ("don't have", "without", …). -/
def negationWords : List String :=
  ["don\x27t have", "dont have", "do not have", "without",
   "no ", "not have", "haven\x27t", "lack"]

/-- `_try_deterministic_count`: the deterministic interceptor for simple
"how many … have X" questions. -/
def _try_deterministic_count (query : String) : Option ParsedQuery :=
  let query_lower := pyStrip (pyLower query)
  if ¬(["how many", "count", "number of"].any (fun w => pyContains query_lower w)) then none
  else
    let negation := negationWords.any (fun w => pyContains query_lower w)
    match FEATURE_MAP.find? (fun e => pyContains query_lower e.phrase) with
    | none => none
    | some e =>
      some { intent := "count", target_fields := [e.field], filter_field := some e.field,
             filter_value := some (if negation then e.noVal else e.yesVal),
             filter_contains := none, quote_id := none,
             output_fields := ["business_name_label"],
             understood_question := "Count proposals where " ++ e.field ++ "=" ++
               (if negation then "No" else "Yes"),
             raw_query := query, parse_success := true }

/-- Separator class of the intent-splitting regex `[|/,\s]+`. -/
def isIntentSep (c : Char) : Bool := c = '|' || c = '/' || c = ',' || isPyWs c

/-- Split on runs of separator characters, dropping empty tokens (the empty
boundary tokens the Python regex split produces are filtered out by the
valid-intent membership test anyway). -/
def splitOnPredAux (p : Char → Bool) : List Char → List Char → List String
  | [], acc => if acc.isEmpty then [] else [⟨acc.reverse⟩]
  | c :: rest, acc =>
    if p c then
      if acc.isEmpty then splitOnPredAux p rest []
      else ⟨acc.reverse⟩ :: splitOnPredAux p rest []
    else splitOnPredAux p rest (c :: acc)

def splitOnPred (p : Char → Bool) (s : String) : List String :=
  splitOnPredAux p s.data []

def validIntents : List String := ["count", "list", "lookup", "compare"]

/-- `_normalize_intent`. -/
def _normalize_intent (raw_intent query : String) : String :=
  let query_lower := pyLower query
  if raw_intent ∈ validIntents then raw_intent
  else
    let parts := splitOnPred isIntentSep raw_intent
    let found := (parts.map pyStrip).filter (fun p => validIntents.contains p)
    if found.isEmpty then
      if ["how many", "count", "number of", "total"].any (fun w => pyContains query_lower w) then
        "count"
      else if ["list", "show", "which", "what are", "give", "name"].any
          (fun w => pyContains query_lower w) then "list"
      else if ["highest", "lowest", "maximum", "minimum"].any
          (fun w => pyContains query_lower w) then "compare"
      else "lookup"
    else if found.contains "count" &&
        ["how many", "count", "number of", "total"].any (fun w => pyContains query_lower w) then
      "count"
    else if found.contains "list" &&
        ["list", "show", "which", "what are", "names"].any (fun w => pyContains query_lower w) then
      "list"
    else found.headD "lookup"

/-- Scanner for the quote-id regex `MYJADEQT\d+` (case-insensitive, first
match, result uppercased). -/
def quoteIdScan : List Char → Option String
  | [] => none
  | c :: rest =>
    if ((c :: rest).take 8).map Char.toUpper = "MYJADEQT".data then
      match (c :: rest).drop 8 with
      | d :: ds =>
        if d.isDigit then some ⟨"MYJADEQT".data ++ (d :: ds).takeWhile Char.isDigit⟩
        else quoteIdScan rest
      | [] => quoteIdScan rest
    else quoteIdScan rest

/-- `re.search(r"MYJADEQT\d+", query, re.IGNORECASE)` followed by `.upper()`
(shared by `_fallback_parse` and query_classifier.extract_quote_id, which use
the identical pattern). -/
def extract_quote_id (query : String) : Option String :=
  quoteIdScan query.data

/-- `_fallback_parse`: keyword heuristics when the model-assisted parse fails. -/
def _fallback_parse (query : String) : ParsedQuery :=
  let query_lower := pyLower query
  let quote_id := extract_quote_id query
  let intent :=
    if ["how many", "count", "number of"].any (fun w => pyContains query_lower w) then "count"
    else if ["list", "show", "what are", "which"].any (fun w => pyContains query_lower w) then "list"
    else if ["highest", "lowest", "maximum", "minimum"].any
        (fun w => pyContains query_lower w) then "compare"
    else "lookup"
  { intent := intent, target_fields := [], filter_field := none, filter_value := none,
    filter_contains := none, quote_id := quote_id, output_fields := [],
    understood_question := query, raw_query := query, parse_success := false }

/-- Body of the model-assisted branch of `parse` (step 4), given a
successfully extracted JSON object: intent normalization, field transfer, and
the post-parse validation that forces or clears `filter_contains`. -/
def parseModelStep (ps : ParserState) (d : RawParsed) (query : String) : ParsedQuery :=
  let raw_intent := pyStrip (pyLower (d.intent.getD "lookup"))
  let parsed_result : ParsedQuery :=
    { intent := _normalize_intent raw_intent query, target_fields := d.target_fields,
      filter_field := d.filter_field, filter_value := d.filter_value,
      filter_contains := d.filter_contains, quote_id := d.quote_id,
      output_fields := d.output_fields,
      understood_question := d.understood_question.getD query,
      raw_query := query, parse_success := true }
  match qpExtractEntity ps query with
  | some e => { parsed_result with filter_contains := some e }
  | none =>
    if truthy parsed_result.filter_contains then
      if pyContains (pyLower query) (pyLower (parsed_result.filter_contains.getD "")) then
        parsed_result
      else { parsed_result with filter_contains := none }
    else parsed_result

/-- `QueryParser.parse`: deterministic count interceptor, out-of-scope check,
deterministic follow-up resolution, then the model-assisted step (with
`_fallback_parse` on any failure). -/
def parse (ps : ParserState) (oracle : Option RawParsed) (query : String) : ParsedQuery :=
  match _try_deterministic_count query with
  | some pq => pq
  | none =>
    if _is_out_of_scope query then
      { intent := "out_of_scope", target_fields := [], filter_field := none,
        filter_value := none, filter_contains := none, quote_id := none,
        output_fields := [], understood_question := query, raw_query := query,
        parse_success := false }
    else if _is_followup_reference ps.conversation_history query then
      _resolve_followup ps.conversation_history query
    else
      match oracle with
      | some d => parseModelStep ps d query
      | none => _fallback_parse query

/-! ### src/answer_formatter.py -/

def _EMPTY_SENTINELS : List String := ["", "None", "nan", "0", "-1", "N/A"]

/-- `_is_empty`: sentinel check on the stripped value (the Python `None` case
corresponds to `""` under the `Row` model). The `ast.literal_eval` heuristic
that additionally classifies `"[...]"`-shaped strings of all-empty dicts as
empty is not modelled; no claim exercises values of that shape. -/
def _is_empty (value : String) : Bool :=
  _EMPTY_SENTINELS.contains (pyStrip value)

/-- `_filter_result`: keep non-empty rows, and when `output_fields` is set,
only the best-scoring row per requested output field. -/
def _filter_result (parsed : ParsedQuery) (result : QueryResult) : QueryResult :=
  let non_empty := (result.data.zip result.details).filter (fun rd => !_is_empty rd.1.value)
  let non_empty :=
    if ¬parsed.output_fields.isEmpty ∧ ¬non_empty.isEmpty then
      parsed.output_fields.foldl
        (fun kept of =>
          let best := non_empty.foldl
            (fun (acc : Nat × Option (Row × String)) rd =>
              let score := _field_match_score of rd.1.field
              if acc.1 < score then (score, some rd) else acc)
            (0, none)
          match best.2 with
          | some rd => if 10 ≤ best.1 then kept ++ [rd] else kept
          | none => kept)
        []
    else non_empty
  if non_empty.isEmpty then
    { success := false, data := [], count := 0,
      summary := "Data not available in proposal records.", details := [] }
  else
    { success := true, data := non_empty.map (·.1), count := non_empty.length,
      summary := result.summary, details := non_empty.map (·.2) }

/-- `format_answer`. The final catch-all branch formats via the model; its
`llm.generate` call is abstracted as `fmtOracle` (`none` = the call raised,
which the source catches and routes to the simple fallback format). -/
def format_answer (fmtOracle : Option String) (parsed : ParsedQuery)
    (result : QueryResult) : String :=
  if parsed.intent = "count" ∧ result.count = 0 then
    "0 proposals match the criteria. No records found with the specified condition."
  else if parsed.intent = "list" ∧ result.count = 0 then
    if truthy parsed.filter_contains then
      "0 proposals found with \x27" ++ parsed.filter_contains.getD "" ++ "\x27 in the records."
    else "0 proposals match the criteria."
  else
    let result :=
      if parsed.intent = "lookup" ∧ ¬result.data.isEmpty ∧ ¬result.details.isEmpty then
        _filter_result parsed result
      else result
    if ¬result.success ∨ result.count = 0 then
      "Data not available in the proposal records."
    else if parsed.intent = "lookup" ∧ result.count = 1 then
      let detail := result.details.headD result.summary
      if truthy parsed.quote_id then "For " ++ parsed.quote_id.getD "" ++ ": " ++ detail
      else detail
    else if parsed.intent = "lookup" ∧ 1 < result.count then
      if ¬result.details.isEmpty then pyJoin "\n" (result.details.map (fun d => "- " ++ d))
      else result.summary
    else if parsed.intent = "count" then
      let wants_names := ["name", "names", "which", "list", "who", "what are"].any
        (fun w => pyContains (pyLower parsed.raw_query) w)
      if 0 < result.count ∧ ¬result.details.isEmpty ∧ wants_names then
        let names := result.details.take 20
        if result.count ≤ 20 then
          "There are " ++ toString result.count ++
            " proposal(s) that match. Here are their names:\n" ++
            pyJoin "\n" (names.map (fun n => "- " ++ n))
        else
          "There are " ++ toString result.count ++
            " proposal(s) that match. Here are the first 20:\n" ++
            pyJoin "\n" (names.map (fun n => "- " ++ n)) ++
            "\n... and " ++ toString (result.count - 20) ++ " more."
      else toString result.count ++ " proposal(s) match the criteria."
    else if parsed.intent = "list" then
      if ¬result.details.isEmpty then
        let items := result.details.take 15
        let listing := pyJoin "\n" (items.map (fun i => "- " ++ i))
        let listing :=
          if 15 < result.count then
            listing ++ "\n... and " ++ toString (result.count - 15) ++ " more."
          else listing
        "Found " ++ toString result.count ++ " matching proposal(s):\n" ++ listing
      else result.summary
    else if parsed.intent = "compare" then result.summary
    else
      match fmtOracle with
      | some response => pyStrip response
      | none =>
        if ¬result.details.isEmpty then
          result.summary ++ "\n" ++ pyJoin "\n" ((result.details.take 10).map (fun d => "- " ++ d))
        else result.summary

/-! ### src/prompt_builder.py -/

def SYSTEM_INSTRUCTION : String :=
  "You are an insurance data assistant for JA Assure. Answer ONLY from the proposal records provided below. Do not infer, assume, extrapolate, or use any knowledge outside the provided context. If the exact data needed to answer is not present, respond with exactly: Data not available in proposal records. Be concise. Output plain text only. No markdown, no bullet points, no bold, no numbered lists."

/-- The fixed refusal sentinel (`REFUSAL_MESSAGE` / `get_refusal_message()`). -/
def REFUSAL_MESSAGE : String := "Data not available in proposal records."

def MAX_CONTEXT_CHARS : Nat := 12000

/-- Fuel-bounded worker for Python `s.split(sep)` with a non-empty separator
(keeps empty boundary tokens, unlike the whitespace split). -/
def splitOnStrAux (sep : List Char) : Nat → List Char → List Char → List String
  | 0, s, acc => [⟨acc.reverse ++ s⟩]
  | fuel + 1, s, acc =>
    match s with
    | [] => [⟨acc.reverse⟩]
    | c :: rest =>
      if sep ≠ [] && sep.isPrefixOf (c :: rest) then
        ⟨acc.reverse⟩ :: splitOnStrAux sep fuel ((c :: rest).drop sep.length) []
      else splitOnStrAux sep fuel rest (c :: acc)

def pySplitOn (s sep : String) : List String :=
  splitOnStrAux sep.data (s.data.length + 1) s.data []

/-- The keep-complete-chunks loop of `truncate_context`. -/
def truncLoop (max_chars : Nat) : List String → Nat → List String → List String
  | [], _, acc => acc.reverse
  | ch :: rest, cur, acc =>
    if max_chars < cur + (ch.length + 2) then acc.reverse
    else truncLoop max_chars rest (cur + (ch.length + 2)) (ch :: acc)

def truncate_context (context : String) (max_chars : Nat) : String :=
  if context.length ≤ max_chars then context
  else
    let chunks := pySplitOn context "\n\n"
    let result_chunks := truncLoop max_chars chunks 0 []
    if result_chunks.isEmpty ∧ ¬chunks.isEmpty then
      pyTake max_chars (chunks.headD "") ++ "..."
    else pyJoin "\n\n" result_chunks

def build_prompt (context question : String) : String :=
  SYSTEM_INSTRUCTION ++ "\n\n=== PROPOSAL RECORDS ===\n" ++
    truncate_context context MAX_CONTEXT_CHARS ++
    "\n=== END OF RECORDS ===\n\nQuestion: " ++ question ++ "\n\nAnswer:"

/-! ### src/query_classifier.py -/

def AGGREGATION_SIGNALS : List String :=
  ["how many", "count", "total", "average", "sum", "which proposals", "list all",
   "compare", "most common", "percentage", "majority", "all proposals",
   "number of", "how much", "across all", "summarize", "aggregate"]

def COMPARISON_SIGNALS : List String :=
  ["highest", "lowest", "maximum", "minimum", "most", "least", "top", "bottom",
   "best", "worst", "greater than", "less than", "more than", "fewer than"]

/-- `classify_query` (the structured-field-signal loop returns "structured" in
both of its arms, so a present quote id always classifies as structured). -/
def classify_query (query : String) : String :=
  let query_lower := pyStrip (pyLower query)
  if AGGREGATION_SIGNALS.any (fun s => pyContains query_lower s) then "analytical"
  else if COMPARISON_SIGNALS.any (fun s => pyContains query_lower s) then "analytical"
  else if (extract_quote_id query).isSome then "structured"
  else "semantic"

/-! ### main.py — fallback handlers and orchestration

The orchestration skeleton is embedded with its exact branch order and
exception structure. Components that perform no embedding/model call and whose
internals no claim depends on are total function parameters of `Components`:
`qaFind` (PredefinedQAStore.find_match on the already-computed query
embedding), `analyticalRun` (AnalyticalEngine.run), `cleanOutput`
(output_cleaner.clean_output). `embedSingle` and `genOracle` return `Except`
because those calls may raise; `log_query` (audit file output) and the
history append (verified separately through `add_to_history` /
`add_raw_to_history`) do not affect the returned answer and are omitted. -/

def mainScoreNoise : List String :=
  ["does", "is", "the", "a", "an", "for", "of", "in",
   "what", "which", "how", "many", "have", "has", "this", "with", "do", "you"]

/-- main.py `score_field_match` (note: this variant replaces separators
*before* lowercasing, unlike the executor's scorer). -/
def score_field_match (field_name query : String) : Nat :=
  let field_words := (pyWords (pyLower (pyReplace (pyReplace field_name "_label" "") "_" " "))).dedup.filter
    (fun w => !(mainScoreNoise.contains w))
  let query_words := (pyWords (pyLower query)).dedup.filter
    (fun w => !(mainScoreNoise.contains w))
  (field_words.filter (fun w => query_words.contains w)).length

def locationKeywords : List String :=
  ["location", "address", "where", "located", "risk location", "city", "state"]

/-- main.py `structured_lookup`. -/
def structured_lookup (metadataExists : Bool) (metadata : List Chunk)
    (query : String) : Option String :=
  match extract_quote_id query with
  | none => none
  | some quote_id =>
    if ¬metadataExists then none
    else
      let query_lower := pyLower query
      let locAnswer :=
        if locationKeywords.any (fun kw => pyContains query_lower kw) then
          (metadata.find? (fun c => c.quote_id = some quote_id ∧ pyStrip c.risk_location ≠ "")).map
            (fun c => "Risk Location for " ++ quote_id ++ ": " ++ c.risk_location)
        else none
      match locAnswer with
      | some a => some a
      | none =>
        let best := metadata.foldl
          (fun (acc : Option (Nat × String × String)) c =>
            if c.quote_id ≠ some quote_id then acc
            else
              let search_fields :=
                if ¬c.decoded_fields.isEmpty then c.decoded_fields else c.fields
              search_fields.foldl
                (fun acc2 kv =>
                  let score := score_field_match kv.1 query
                  if 0 < score then
                    match acc2 with
                    | none => some (score, kv.1, kv.2)
                    | some b => if b.1 < score then some (score, kv.1, kv.2) else acc2
                  else acc2) acc)
          none
        match best with
        | some b =>
          if 2 ≤ b.1 then
            some (pyTitle (pyReplace (pyReplace b.2.1 "_label" "") "_" " ") ++
              " for " ++ quote_id ++ ": " ++ b.2.2)
          else none
        | none => none

def stateCityNames : List String :=
  ["penang", "johor", "selangor", "kuala lumpur", "kedah", "perak",
   "sabah", "sarawak", "melaka", "pahang", "kelantan", "terengganu",
   "negeri sembilan", "perlis", "putrajaya", "labuan", "johor bahru",
   "george town", "ipoh", "kuching", "kota kinabalu", "alor setar",
   "shah alam", "petaling jaya", "subang", "klang", "cyberjaya",
   "muar", "batu pahat", "larkin", "senai"]

def spvBusinessTypes : List String :=
  ["pawn", "pawn shop", "pawnshop", "pawnbroker", "money changer",
   "money exchange", "forex", "fx exchange", "exchange", "jeweller",
   "goldsmith", "gold", "jewelry", "jewellery"]

/-- main.py `search_proposals_by_value`. -/
def search_proposals_by_value (metadataExists : Bool) (metadata : List Chunk)
    (query : String) : Option String :=
  if ¬metadataExists then none
  else
    let query_lower := pyLower query
    let target_location := stateCityNames.find? (fun loc => pyContains query_lower loc)
    let target_business_type := spvBusinessTypes.find? (fun bt => pyContains query_lower bt)
    let looking_for_business := ["business", "company", "name", "who", "which"].any
      (fun w => pyContains query_lower w)
    let looking_for_count := ["how many", "count", "number of"].any
      (fun w => pyContains query_lower w)
    let looking_for_list := ["list", "show", "all", "give"].any
      (fun w => pyContains query_lower w)
    let scan := metadata.foldl
      (fun (acc : List String × List String) c =>
        match c.quote_id with
        | none => acc
        | some qid =>
          if qid = "" ∨ qid ∈ acc.1 then acc
          else
            let risk_location := c.risk_location
            let extracted := c.fields.foldl
              (fun (bn : Option String × Option String) kv =>
                let fn_lower := pyLower kv.1
                if pyContains fn_lower "business_name" ∧ ¬truthy bn.1 then (some kv.2, bn.2)
                else if pyContains fn_lower "nature_of_business" ∧ ¬truthy bn.2 then
                  (bn.1, some kv.2)
                else bn)
              (none, none)
            let business_name := extracted.1
            let nature_of_business := extracted.2
            let btBranch : List String × List String :=
              match target_business_type with
              | some bt =>
                let nature_str := if truthy nature_of_business then
                    pyLower (nature_of_business.getD "") else ""
                let name_str := if truthy business_name then
                    pyLower (business_name.getD "") else ""
                if pyContains nature_str bt ∨ pyContains name_str bt then
                  let entry :=
                    if looking_for_business ∧ truthy business_name then
                      let rl_short :=
                        if 50 < risk_location.length then pyTake 50 risk_location ++ "..."
                        else risk_location
                      business_name.getD "" ++ " (" ++ qid ++ ") - " ++ rl_short
                    else
                      qid ++ ": " ++
                        (if truthy nature_of_business then nature_of_business.getD "" else "N/A")
                  (acc.1 ++ [qid], acc.2 ++ [entry])
                else acc
              | none => acc
            match target_location with
            | some loc =>
              if pyContains (pyLower risk_location) loc then
                let entry :=
                  if looking_for_business ∧ truthy business_name then
                    business_name.getD "" ++ " (" ++ qid ++ ") - " ++ risk_location
                  else qid ++ ": " ++ risk_location
                (acc.1 ++ [qid], acc.2 ++ [entry])
              else btBranch
            | none => btBranch)
      ([], [])
    let results := scan.2
    if ¬results.isEmpty then
      if looking_for_count then
        match target_location with
        | some loc =>
          some ("Found " ++ toString results.length ++ " proposal(s) in " ++ pyTitle loc ++ ".")
        | none =>
          match target_business_type with
          | some bt => some ("Found " ++ toString results.length ++ " " ++ bt ++ " business(es).")
          | none => some ("Found " ++ toString results.length ++ " proposal(s) matching your query.")
      else if looking_for_business ∧ target_location.isSome then
        if results.length = 1 then
          some ("Business operating in " ++ pyTitle (target_location.getD "") ++ ": " ++
            results.headD "")
        else
          some ("Businesses operating in " ++ pyTitle (target_location.getD "") ++ ":\n" ++
            pyJoin "\n" (results.map (fun r => "- " ++ r)))
      else if looking_for_business ∧ target_business_type.isSome then
        if results.length = 1 then
          some (pyTitle (target_business_type.getD "") ++ " business: " ++ results.headD "")
        else
          some (pyTitle (target_business_type.getD "") ++ " businesses:\n" ++
            pyJoin "\n" (results.map (fun r => "- " ++ r)))
      else if looking_for_list then some (pyJoin "\n" (results.map (fun r => "- " ++ r)))
      else some (pyJoin "\n" results)
    else none

def aqhLocationNames : List String :=
  ["penang", "johor", "selangor", "kuala lumpur", "kedah", "perak",
   "sabah", "sarawak", "melaka", "pahang", "kelantan", "terengganu",
   "negeri sembilan", "perlis", "putrajaya", "labuan", "johor bahru",
   "george town", "ipoh", "kuching", "kota kinabalu", "muar"]

def aqhBusinessTypes : List String :=
  ["pawn", "pawnshop", "money changer", "forex", "exchange", "jeweller", "goldsmith"]

def yesValuesA : List String := ["001", "yes", "true", "1"]

/-- Distinct (truthy) quote ids, in scan order. -/
def distinctQids (metadata : List Chunk) : List String :=
  metadata.foldl
    (fun qs c =>
      match c.quote_id with
      | some q => if q ≠ "" ∧ q ∉ qs then qs ++ [q] else qs
      | none => qs)
    []

/-- Distinct quotes having one of the pattern fields at a yes value
(raw fields, as in the source). -/
def countYesFeature (metadata : List Chunk) (pats : List String) : Nat :=
  (metadata.foldl
    (fun counted c =>
      match c.quote_id with
      | none => counted
      | some qid =>
        if qid = "" ∨ qid ∈ counted then counted
        else if c.fields.any
            (fun kv => pats.any (fun p => pyContains (pyLower kv.1) p) &&
                       yesValuesA.contains (pyStrip (pyLower kv.2))) then
          counted ++ [qid]
        else counted)
    []).length

/-- main.py `analytical_query_handler`. -/
def analytical_query_handler (metadataExists : Bool) (metadata : List Chunk)
    (query : String) : Option String :=
  if ¬metadataExists then none
  else
    let query_lower := pyLower query
    if aqhLocationNames.any (fun loc => pyContains query_lower loc) then none
    else if aqhBusinessTypes.any (fun bt => pyContains query_lower bt) then none
    else
      let feature := fun (pats : List String) =>
        some (toString (countYesFeature metadata pats) ++ " proposals have this feature.")
      let howMany : Option String :=
        if pyContains query_lower "how many" then
          if pyContains query_lower "cctv maintenance" then feature ["cctv_maintenance_contract"]
          else if pyContains query_lower "alarm maintenance" ∨
              pyContains query_lower "maintenance contract" then
            feature ["under_maintenance_contract", "maintenance"]
          else if pyContains query_lower "armoured" ∨ pyContains query_lower "armored" then
            feature ["armoured_vehicle"]
          else if pyContains query_lower "armed guards" then feature ["armed_guards"]
          else if pyContains query_lower "strong room" then feature ["strong_room"]
          else if pyContains query_lower "cctv" then feature ["cctv", "recording"]
          else if pyContains query_lower "alarm" then feature ["alarm", "do_you_have_alarm"]
          else if pyContains query_lower "safe" then feature ["safe", "certified"]
          else if pyContains query_lower "proposal" ∨ pyContains query_lower "record" then
            some ("There are " ++ toString (distinctQids metadata).length ++
              " proposal records in the system.")
          else none
        else none
      match howMany with
      | some a => some a
      | none =>
        if (["list all", "show all", "what are all", "give all"].any
              (fun w => pyContains query_lower w)) ∧
            (pyContains query_lower "proposal" ∨ pyContains query_lower "quote") then
          some ("Proposals in system:\n" ++
            pyJoin "\n" ((sortLex (distinctQids metadata)).map (fun q => "- " ++ q)))
        else none

/-- The last `n` elements of a list. -/
def lastN (n : Nat) (l : List α) : List α := l.drop (l.length - n)

def PREDEFINED_SIMILARITY_THRESHOLD : ℚ := 85 / 100

def CHUNK_SIMILARITY_THRESHOLD : ℚ := 1 / 2

def TOP_K_CHUNKS : Nat := 5

/-- The external collaborators and per-request state `handle_query` runs with.
`E` is the opaque embedding-vector type. -/
structure Components (E : Type) where
  embedSingle : String → Except String E
  qaFind : E → Option String
  parserState : ParserState
  parseOracle : Option RawParsed
  fmtOracle : Option String
  genOracle : String → Except String String
  analyticalRun : String → Option String
  cleanOutput : String → String
  metadata : List Chunk
  metadataExists : Bool
  indexExists : Bool
  searchHits : E → List (ℚ × Int)

/-- The filter-and-collect loop of `retrieve_chunks_with_threshold`: track the
top similarity, keep chunks at or above the threshold (optionally filtered to
one quote id), stop at `top_k`. The source also stamps the score onto the
chunk dict; downstream code reads only its text, so the stamp is omitted. An
index of -1 marks a missing hit; other indices come from the FAISS index over
this metadata list and are in range (an out-of-range index would raise in the
source and is skipped here, unreachable for index-produced hits). -/
def retrieveLoopAux (metadata : List Chunk) (threshold : ℚ) (top_k : Nat)
    (qidFilter : Option String) :
    List (ℚ × Int) → List Chunk → ℚ → List Chunk × ℚ
  | [], acc, top => (acc.reverse, top)
  | (score, idx) :: rest, acc, top =>
    if idx = -1 then retrieveLoopAux metadata threshold top_k qidFilter rest acc top
    else
      let top := if top < score then score else top
      if score < threshold then retrieveLoopAux metadata threshold top_k qidFilter rest acc top
      else
        match metadata.get? idx.toNat with
        | none => retrieveLoopAux metadata threshold top_k qidFilter rest acc top
        | some chunk =>
          if truthy qidFilter ∧ chunk.quote_id ≠ qidFilter then
            retrieveLoopAux metadata threshold top_k qidFilter rest acc top
          else
            let acc := chunk :: acc
            if top_k ≤ acc.length then (acc.reverse, top)
            else retrieveLoopAux metadata threshold top_k qidFilter rest acc top

/-- `retrieve_chunks_with_threshold`: missing index/metadata short-circuits;
otherwise embed the query (which may raise) and filter the search hits. -/
def retrieve_chunks_with_threshold {E : Type} (C : Components E) (query : String)
    (quote_id_filter : Option String) : Except String (List Chunk × ℚ) :=
  if ¬C.indexExists ∨ ¬C.metadataExists then Except.ok ([], 0)
  else do
    let qv ← C.embedSingle query
    pure (retrieveLoopAux C.metadata CHUNK_SIMILARITY_THRESHOLD TOP_K_CHUNKS
      quote_id_filter (C.searchHits qv) [] 0)

/-- The `Previous conversation:` context block built from the last 3 turns. -/
def historyContext (hist : List Turn) : String :=
  if hist.isEmpty then ""
  else
    pyJoin "\n" ("Previous conversation:" ::
      (lastN 3 hist).foldr
        (fun t acc => ("User: " ++ t.query) :: ("Assistant: " ++ t.answer_preview) :: acc)
        []) ++ "\n\n"

/-- Steps 6–9 of `handle_query`: vector retrieval, refusal when nothing clears
the threshold, otherwise grounded generation with the generate failure caught
and converted to the refusal. -/
def semantic_stage {E : Type} (C : Components E) (query : String)
    (quote_id : Option String) : Except String String := do
  let rc ← retrieve_chunks_with_threshold C query quote_id
  if rc.1.isEmpty then pure REFUSAL_MESSAGE
  else
    let history_context := historyContext C.parserState.conversation_history
    let prompt := build_prompt (history_context ++ pyJoin "\n\n" (rc.1.map (·.text))) query
    match C.genOracle prompt with
    | Except.ok raw_answer => pure (C.cleanOutput raw_answer)
    | Except.error _ => pure REFUSAL_MESSAGE

/-- Steps 4–5 of `handle_query`: deterministic structured lookup, then
cross-proposal value search, then the semantic stage. -/
def structured_stage {E : Type} (C : Components E) (query : String)
    (quote_id : Option String) : Except String String :=
  match structured_lookup C.metadataExists C.metadata query with
  | some r => Except.ok (C.cleanOutput r)
  | none =>
    match search_proposals_by_value C.metadataExists C.metadata query with
    | some r => Except.ok (C.cleanOutput r)
    | none => semantic_stage C query quote_id

/-- Step 3 of `handle_query`: the analytical branch (specific handler, then
the analytical engine), falling through to the structured stage. -/
def fallback_stage {E : Type} (C : Components E) (query : String)
    (quote_id : Option String) : Except String String :=
  if classify_query query = "analytical" then
    match analytical_query_handler C.metadataExists C.metadata query with
    | some r => Except.ok (C.cleanOutput r)
    | none =>
      match C.analyticalRun query with
      | some r => Except.ok (C.cleanOutput r)
      | none => structured_stage C query quote_id
  else structured_stage C query quote_id

/-- The executor-result acceptance test of `handle_query`. -/
def should_use_result (parsed : ParsedQuery) (result : QueryResult) : Bool :=
  parsed.parse_success &&
  ((["count", "list"].contains parsed.intent &&
      (truthy parsed.filter_contains || truthy parsed.filter_value)) ||
   (parsed.intent == "lookup" && !truthy parsed.quote_id && truthy parsed.filter_contains) ||
   (result.success && decide (0 < result.count)))

def OUT_OF_SCOPE_ANSWER : String :=
  "This question is outside the scope of the proposal database. I can only answer questions about data available in the insurance proposal records."

/-- Step 2 of `handle_query`: parse, out-of-scope early return, executor, and
acceptance; otherwise the fallback cascade. -/
def main_stage {E : Type} (C : Components E) (query : String)
    (quote_id : Option String) : Except String String :=
  let parsed := parse C.parserState C.parseOracle query
  if parsed.intent = "out_of_scope" then Except.ok (C.cleanOutput OUT_OF_SCOPE_ANSWER)
  else
    let result := execute C.metadata parsed
    if should_use_result parsed result then
      Except.ok (C.cleanOutput (format_answer C.fmtOracle parsed result))
    else fallback_stage C query quote_id

/-- main.py `handle_query`: the full orchestration. The top-level
`embedder.embed_single(query)` call is *not* inside a try/except in the
source, so its failure propagates (`Except.error`). -/
def handle_query {E : Type} (C : Components E) (query : String) : Except String String := do
  let query := pyStrip query
  let quote_id := extract_quote_id query
  let qe ← C.embedSingle query
  match C.qaFind qe with
  | some predefined_answer => pure (C.cleanOutput predefined_answer)
  | none => main_stage C query quote_id

/-! ### Claim C6 — field-match score properties -/

lemma field_match_score_self (x : String) : _field_match_score x x = 100 := by
  unfold _field_match_score
  simp

lemma field_match_score_overlap (r a : String)
    (h1 : normFieldName r ≠ normFieldName a)
    (h2 : pyContains (normFieldName a) (normFieldName r) = false)
    (h3 : pyContains (normFieldName r) (normFieldName a) = false) :
    _field_match_score r a = 10 * fieldOverlap r a := by
  unfold _field_match_score fieldOverlap
  simp only [h2, h3, if_neg h1, Bool.or_self, Bool.false_eq_true, if_false]
  by_cases he : (wordSetMinusNoise (normFieldName r)).isEmpty
  · have hnil : wordSetMinusNoise (normFieldName r) = [] := by
      cases hl : wordSetMinusNoise (normFieldName r) with
      | nil => rfl
      | cons x xs => rw [hl] at he; simp [List.isEmpty] at he
    simp [he, hnil]
  · simp only [he, Bool.false_eq_true, if_false]
    by_cases ho : 0 < ((wordSetMinusNoise (normFieldName r)).filter
        (fun w => (wordSetMinusNoise (normFieldName a)).contains w)).length
    · simp [ho, Nat.mul_comm]
    · have h0 : ((wordSetMinusNoise (normFieldName r)).filter
          (fun w => (wordSetMinusNoise (normFieldName a)).contains w)).length = 0 :=
        Nat.eq_zero_of_not_pos ho
      rw [if_neg ho, h0, Nat.mul_zero]

/-- C6: "The executor's field-match score satisfies score(x, x) = 100 for
every field-name string x, and is monotonic: adding shared words to both the
requested and the actual field name never decreases the score." — the first
half holds as stated; the monotonicity half is false across branches (see the
counterexample), so it is amended to: within the word-overlap branch (names
that are neither equal nor mutually containing after normalization) the score
equals 10 × the shared significant-word count and is therefore monotone in
that count. -/
theorem C6_field_match_score :
    (∀ x, _field_match_score x x = 100) ∧
    (∀ r a, normFieldName r ≠ normFieldName a →
      pyContains (normFieldName a) (normFieldName r) = false →
      pyContains (normFieldName r) (normFieldName a) = false →
      _field_match_score r a = 10 * fieldOverlap r a) ∧
    (∀ r a r2 a2, normFieldName r ≠ normFieldName a →
      pyContains (normFieldName a) (normFieldName r) = false →
      pyContains (normFieldName r) (normFieldName a) = false →
      normFieldName r2 ≠ normFieldName a2 →
      pyContains (normFieldName a2) (normFieldName r2) = false →
      pyContains (normFieldName r2) (normFieldName a2) = false →
      fieldOverlap r a ≤ fieldOverlap r2 a2 →
      _field_match_score r a ≤ _field_match_score r2 a2) := by
  refine ⟨field_match_score_self, field_match_score_overlap, ?_⟩
  intro r a r2 a2 h1 h2 h3 h4 h5 h6 hle
  rw [field_match_score_overlap r a h1 h2 h3, field_match_score_overlap r2 a2 h4 h5 h6]
  exact Nat.mul_le_mul_left 10 hle

/-- Witness for C6 at concrete inputs: identical names score 100, and a
word-overlap-branch pair scores 10 × its overlap. -/
theorem C6_field_match_score_witness :
    _field_match_score "beta" "beta" = 100 ∧
    _field_match_score "alpha beta" "beta gamma" = 10 * fieldOverlap "alpha beta" "beta gamma" :=
  ⟨C6_field_match_score.1 "beta",
   C6_field_match_score.2.1 "alpha beta" "beta gamma" (by decide) (by decide) (by decide)⟩

/-- Counterexample to C6's monotonicity as stated: `score("ab", "abc") = 52`
(containment branch), but appending the shared word `z` to both names gives
`score("ab z", "abc z") = 10` — adding a shared word *decreased* the score. -/
theorem C6_field_match_score_counterexample :
    _field_match_score "ab" "abc" = 52 ∧
    _field_match_score "ab z" "abc z" = 10 ∧ (10 : Nat) < 52 :=
  ⟨by decide, by decide, by decide⟩

/-! ### Claim C7 — passthrough decode -/

/-- C7: "For every field name in the passthrough set and every value,
decode(field_name, value) returns the value unchanged." — corrected: the
source returns `value.strip()` for passthrough fields, so the value is
returned *whitespace-trimmed*; it is unchanged exactly when it carries no
leading/trailing whitespace. -/
theorem C7_decode_passthrough (f v : String) (hf : f ∈ PASSTHROUGH_FIELDS) :
    decode_field f v = pyStrip v ∧ (pyStrip v = v → decode_field f v = v) := by
  have h : decode_field f v = pyStrip v := by
    unfold decode_field
    by_cases hv : v = ""
    · subst hv
      rfl
    · rw [if_neg hv, if_pos hf]
  exact ⟨h, fun hs => h.trans hs⟩

/-- Witness for C7 at a concrete passthrough field and trimmed value. -/
theorem C7_decode_passthrough_witness :
    "safe_model_label" ∈ PASSTHROUGH_FIELDS ∧
    decode_field "safe_model_label" "Chubb" = "Chubb" :=
  ⟨by decide,
   (C7_decode_passthrough "safe_model_label" "Chubb" (by decide)).2 (by decide)⟩

/-- Counterexample to C7 as stated: a passthrough field returns a padded value
trimmed, not unchanged. -/
theorem C7_decode_passthrough_counterexample :
    "business_name_label" ∈ PASSTHROUGH_FIELDS ∧
    decode_field "business_name_label" " x " ≠ " x " :=
  ⟨by decide, by decide⟩

/-! ### Claim C8 — conversation history cap -/

/-- One history-extending operation: a parsed turn (`add_to_history`) or a
degenerate raw turn (`add_raw_to_history`). -/
inductive HistOp where
  | parsedOp (query : String) (parsed : ParsedQuery) (answer : String)
  | rawOp (query : String) (answer : String)

/-- Apply one history operation. -/
def applyHistOp (h : List Turn) : HistOp → List Turn
  | .parsedOp q p a => add_to_history h q p a
  | .rawOp q a => add_raw_to_history h q a

/-- The turn an operation appends. -/
def histTurn : HistOp → Turn
  | .parsedOp q p a => mkTurn q p a
  | .rawOp q a => mkRawTurn q a

lemma lastN_length_le {α : Type} (n : Nat) (l : List α) : (lastN n l).length ≤ n := by
  unfold lastN
  rw [List.length_drop]
  omega

lemma lastN_of_le {α : Type} (n : Nat) (l : List α) (h : l.length ≤ n) : lastN n l = l := by
  unfold lastN
  rw [Nat.sub_eq_zero_of_le h, List.drop_zero]

lemma applyHistOp_eq_lastN (h : List Turn) (op : HistOp) :
    applyHistOp h op = lastN 5 (h ++ [histTurn op]) := by
  have key : ∀ t : Turn,
      (if 5 < (h ++ [t]).length then (h ++ [t]).drop ((h ++ [t]).length - 5) else h ++ [t]) =
        lastN 5 (h ++ [t]) := by
    intro t
    by_cases h5 : 5 < (h ++ [t]).length
    · rw [if_pos h5]
      rfl
    · rw [if_neg h5, lastN_of_le 5 _ (Nat.le_of_not_lt h5)]
  cases op with
  | parsedOp q p a => exact key (mkTurn q p a)
  | rawOp q a => exact key (mkRawTurn q a)

lemma lastN_absorb {α : Type} (n : Nat) (l m : List α) :
    lastN n (lastN n l ++ m) = lastN n (l ++ m) := by
  unfold lastN
  rcases le_or_lt l.length n with hle | hlt
  · rw [Nat.sub_eq_zero_of_le hle, List.drop_zero]
  · have hd : (l.drop (l.length - n)).length = n := by
      rw [List.length_drop]
      omega
    have hlen1 : (l.drop (l.length - n) ++ m).length - n = m.length := by
      rw [List.length_append, hd]
      omega
    have hlen2 : (l ++ m).length - n = (l.take (l.length - n)).length + m.length := by
      rw [List.length_append, List.length_take]
      omega
    have hsplit : l ++ m = l.take (l.length - n) ++ (l.drop (l.length - n) ++ m) := by
      rw [← List.append_assoc, List.take_append_drop]
    rw [hlen1, hlen2, hsplit, List.drop_append]

lemma foldl_applyHistOp (ops : List HistOp) :
    ∀ h : List Turn, h.length ≤ 5 →
      ops.foldl applyHistOp h = lastN 5 (h ++ ops.map histTurn) := by
  induction ops with
  | nil =>
    intro h hh
    rw [List.foldl_nil, List.map_nil, List.append_nil, lastN_of_le 5 h hh]
  | cons op ops ih =>
    intro h hh
    rw [List.foldl_cons]
    have hlen : (applyHistOp h op).length ≤ 5 := by
      rw [applyHistOp_eq_lastN]
      exact lastN_length_le 5 _
    rw [ih _ hlen, applyHistOp_eq_lastN, lastN_absorb, List.map_cons, List.append_assoc,
      List.singleton_append]

/-- C8: the conversation history never exceeds 5 entries — for every sequence
of `add_to_history`/`add_raw_to_history` operations starting from an empty
history, the resulting history has at most 5 turns and equals exactly the
last-5 suffix of all appended turns (so the oldest turns are the ones
evicted). Confirmed. -/
theorem C8_history_capped (ops : List HistOp) :
    (ops.foldl applyHistOp []).length ≤ 5 ∧
    ops.foldl applyHistOp [] = lastN 5 (ops.map histTurn) := by
  have h := foldl_applyHistOp ops [] (by simp)
  rw [List.nil_append] at h
  exact ⟨h ▸ lastN_length_le 5 _, h⟩

/-! ### Claim C5 — deterministic negated count parse -/

def C5_query : String := "How many proposals don\x27t have alarms?"

def C5_expected : ParsedQuery :=
  { intent := "count", target_fields := ["do_you_have_alarm_label"],
    filter_field := some "do_you_have_alarm_label", filter_value := some "002",
    filter_contains := none, quote_id := none, output_fields := ["business_name_label"],
    understood_question := "Count proposals where do_you_have_alarm_label=No",
    raw_query := C5_query, parse_success := true }

/-- C5: parsing "How many proposals don't have alarms?" is intercepted by the
deterministic count handler: for every parser state (entity catalogs and
history) and every language-model oracle outcome, `parse` returns
intent=count with filter_field=do_you_have_alarm_label and the negated code
filter_value="002" — the result never depends on the model (step 1 returns
before the model-assisted step). Confirmed. -/
theorem C5_dont_have_alarms_deterministic (ps : ParserState) (oracle : Option RawParsed) :
    parse ps oracle C5_query = C5_expected := by
  have h : _try_deterministic_count C5_query = some C5_expected := by decide
  unfold parse
  rw [h]

/-! ### Shared parser-path lemmas for C3 and C4 -/

lemma pyContains_empty_needle (h : String) : pyContains h "" = true := by
  unfold pyContains
  cases hd : h.data with
  | nil => rfl
  | cons c t => simp [listIsInfix, List.isPrefixOf]

lemma parse_modelPath_some (ps : ParserState) (d : RawParsed) (q : String)
    (h_det : _try_deterministic_count q = none)
    (h_oos : _is_out_of_scope q = false)
    (h_fu : _is_followup_reference ps.conversation_history q = false) :
    parse ps (some d) q = parseModelStep ps d q := by
  unfold parse
  rw [h_det, h_oos, h_fu]
  rfl

lemma parse_modelPath_none (ps : ParserState) (q : String)
    (h_det : _try_deterministic_count q = none)
    (h_oos : _is_out_of_scope q = false)
    (h_fu : _is_followup_reference ps.conversation_history q = false) :
    parse ps none q = _fallback_parse q := by
  unfold parse
  rw [h_det, h_oos, h_fu]
  rfl

lemma fallback_parse_filter_contains (q : String) :
    (_fallback_parse q).filter_contains = none := rfl

/-- Inversion for the parser's entity extractor: a returned name's lowercase
form — or, for a business name, the lowercase of its first two words — occurs
in the lowercased query. -/
lemma qpExtractEntity_spec (ps : ParserState) (q e : String)
    (h : qpExtractEntity ps q = some e) :
    pyContains (pyLower q) (pyLower e) = true ∨
    (2 ≤ (pyWords (pyLower e)).length ∧
      pyContains (pyLower q) (pyJoin " " ((pyWords (pyLower e)).take 2)) = true) := by
  simp only [qpExtractEntity] at h
  cases hp : ps.known_persons.find? (fun n => pyContains (pyLower q) (pyLower n)) with
  | some n =>
    rw [hp] at h
    cases h
    have h1 := List.find?_some hp
    exact Or.inl h1
  | none =>
    rw [hp] at h
    cases hb : ps.known_businesses.find? (fun n => pyContains (pyLower q) (pyLower n)) with
    | some n =>
      rw [hb] at h
      cases h
      have h1 := List.find?_some hb
      exact Or.inl h1
    | none =>
      rw [hb] at h
      have h1 := List.find?_some h
      simp only [Bool.and_eq_true, decide_eq_true_eq] at h1
      exact Or.inr h1

/-- The `filter_contains` value `parseModelStep` produces, as an explicit case
split (extractor hit forces the catalog name; otherwise a truthy model value
is kept only when it occurs case-insensitively in the query). -/
lemma parseModelStep_fc (ps : ParserState) (d : RawParsed) (q : String) :
    (parseModelStep ps d q).filter_contains =
      match qpExtractEntity ps q with
      | some e => some e
      | none =>
        if truthy d.filter_contains then
          if pyContains (pyLower q) (pyLower (d.filter_contains.getD "")) then
            d.filter_contains
          else none
        else d.filter_contains := by
  unfold parseModelStep
  cases qpExtractEntity ps q with
  | some e => rfl
  | none =>
    by_cases ht : truthy d.filter_contains = true
    · by_cases hc : pyContains (pyLower q) (pyLower (d.filter_contains.getD "")) = true
      · simp [ht, hc]
      · simp [ht, hc]
    · simp [ht]

/-- Inversion for the post-parse validation: whatever the model returned, a
set `filter_contains` of the final `ParsedQuery` is either the entity name
forced by the extractor or a string occurring case-insensitively in the
current query. -/
lemma parseModelStep_filter_contains (ps : ParserState) (d : RawParsed) (q c : String)
    (h : (parseModelStep ps d q).filter_contains = some c) :
    qpExtractEntity ps q = some c ∨ pyContains (pyLower q) (pyLower c) = true := by
  rw [parseModelStep_fc] at h
  cases hq : qpExtractEntity ps q with
  | some e =>
    rw [hq] at h
    cases h
    exact Or.inl rfl
  | none =>
    rw [hq] at h
    have h2 : (if truthy d.filter_contains then
        (if pyContains (pyLower q) (pyLower (d.filter_contains.getD "")) then
          d.filter_contains
        else none)
      else d.filter_contains) = some c := h
    by_cases ht : truthy d.filter_contains = true
    · rw [if_pos ht] at h2
      by_cases hc : pyContains (pyLower q) (pyLower (d.filter_contains.getD "")) = true
      · rw [if_pos hc] at h2
        rw [h2] at hc
        exact Or.inr hc
      · rw [if_neg hc] at h2
        cases h2
    · rw [if_neg ht] at h2
      have hc0 : c = "" := by
        rw [h2] at ht
        simpa [truthy] using ht
      subst hc0
      exact Or.inr (pyContains_empty_needle _)

/-! ### Claim C3 — context-bleed guard on "how many proposals are in Penang?" -/

def C3_query : String := "how many proposals are in Penang?"

lemma C3_not_followup (hist : List Turn) :
    _is_followup_reference hist C3_query = false := by
  unfold _is_followup_reference
  by_cases he : hist.isEmpty
  · simp [he]
  · simp only [he, Bool.false_eq_true, if_false]
    decide

/-- C3 (amended): with any prior conversation state and for every possible
language-model response, parsing "how many proposals are in Penang?" never
yields filter_contains = "Acme Pawn" (the prior turn's filter cannot flow
through: a kept value must be a case-insensitive substring of the current
query, and the entity extractor can only force names matching the current
query); the claim's stronger form — the result is exactly "Penang" or null —
is false, because *any* substring of the current query returned by the model
survives validation (see the counterexample). -/
theorem C3_no_stale_filter (ps : ParserState) (oracle : Option RawParsed) :
    (parse ps oracle C3_query).filter_contains ≠ some "Acme Pawn" ∧
    (∀ c, (parse ps oracle C3_query).filter_contains = some c →
      qpExtractEntity ps C3_query = some c ∨
      pyContains (pyLower C3_query) (pyLower c) = true) := by
  have h_det : _try_deterministic_count C3_query = none := by decide
  have h_oos : _is_out_of_scope C3_query = false := by decide
  have h_fu := C3_not_followup ps.conversation_history
  have key : ∀ c, (parse ps oracle C3_query).filter_contains = some c →
      qpExtractEntity ps C3_query = some c ∨
      pyContains (pyLower C3_query) (pyLower c) = true := by
    intro c hc
    cases oracle with
    | none =>
      rw [parse_modelPath_none ps C3_query h_det h_oos h_fu,
        fallback_parse_filter_contains] at hc
      cases hc
    | some d =>
      rw [parse_modelPath_some ps d C3_query h_det h_oos h_fu] at hc
      exact parseModelStep_filter_contains ps d C3_query c hc
  refine ⟨?_, key⟩
  intro hAcme
  rcases key "Acme Pawn" hAcme with h | h
  · rcases qpExtractEntity_spec ps C3_query "Acme Pawn" h with h' | h'
    · revert h'
      decide
    · rcases h' with ⟨-, h2⟩
      revert h2
      decide
  · revert h
    decide

def C3_prior_turn : Turn :=
  { query := "what is the claim history of Acme Pawn?", intent := "lookup",
    filter_field := none, filter_value := none, filter_contains := some "Acme Pawn",
    target_fields := [], output_fields := ["claim_history_label"],
    understood_question := "Get claim history for Acme Pawn",
    answer_preview := "No claim within 3 years" }

def C3_state : ParserState := ⟨FALLBACK_PERSONS, FALLBACK_BUSINESSES, [C3_prior_turn]⟩

def C3_model_output : RawParsed :=
  { intent := some "count", filter_contains := some "many proposals" }

/-- Counterexample to C3 as stated ("filter_contains equal to 'Penang' or
null"): with the prior turn holding filter_contains = "Acme Pawn" and a model
response whose filter_contains is "many proposals" (a substring of the current
query), the parsed result keeps "many proposals" — neither "Penang" nor null
(though still never "Acme Pawn"). -/
theorem C3_counterexample :
    (parse C3_state (some C3_model_output) C3_query).filter_contains =
      some "many proposals" ∧
    some "many proposals" ≠ some "Penang" ∧
    (some "many proposals" : Option String) ≠ none :=
  ⟨by decide, by decide, by decide⟩

/-! ### Claim C4 — filter_contains vs. the raw query -/

/-- C4 (amended): on the model-assisted path (deterministic interceptor,
out-of-scope check and follow-up detection all decline), for every parser
state and every model response, a set `filter_contains` is either the catalog
entity name forced by the entity extractor (which matches the query only
case-insensitively, possibly just on a business name's first two words) or a
string occurring case-insensitively in the current raw query. The claim's
stated form — a *literal* substring of the raw query — is false (see the
counterexample: a forced catalog name differs in case from the query). -/
theorem C4_filter_contains_guard (ps : ParserState) (oracle : Option RawParsed)
    (q c : String)
    (h_det : _try_deterministic_count q = none)
    (h_oos : _is_out_of_scope q = false)
    (h_fu : _is_followup_reference ps.conversation_history q = false)
    (hc : (parse ps oracle q).filter_contains = some c) :
    qpExtractEntity ps q = some c ∨ pyContains (pyLower q) (pyLower c) = true := by
  cases oracle with
  | none =>
    rw [parse_modelPath_none ps q h_det h_oos h_fu, fallback_parse_filter_contains] at hc
    cases hc
  | some d =>
    rw [parse_modelPath_some ps d q h_det h_oos h_fu] at hc
    exact parseModelStep_filter_contains ps d q c hc

/-- Witness for C4 at a concrete model-assisted parse. -/
theorem C4_filter_contains_guard_witness :
    (parse ⟨[], [], []⟩ (some { filter_contains := some "acme" })
        "tell me about acme").filter_contains = some "acme" ∧
    (qpExtractEntity ⟨[], [], []⟩ "tell me about acme" = some "acme" ∨
      pyContains (pyLower "tell me about acme") (pyLower "acme") = true) :=
  ⟨by decide,
   C4_filter_contains_guard ⟨[], [], []⟩ (some { filter_contains := some "acme" })
     "tell me about acme" "acme" (by decide) (by decide) (by decide) (by decide)⟩

def C4_state : ParserState := ⟨["Suresh Kumar"], ["Beta Corp"], []⟩

def C4_query : String := "what does suresh kumar do?"

/-- Counterexample to C4 as stated: the post-parse validation *forces*
filter_contains to the catalog spelling "Suresh Kumar", which is not a literal
substring of the raw query "what does suresh kumar do?" (case differs). -/
theorem C4_counterexample :
    (parse C4_state (some { intent := some "lookup" }) C4_query).filter_contains =
      some "Suresh Kumar" ∧
    pyContains C4_query "Suresh Kumar" = false :=
  ⟨by decide, by decide⟩

/-! ### Claims C1 and C10 — zero-result counting -/

lemma countChunkStep_no_match (metadata : List Chunk) (parsed : ParsedQuery)
    (acc : List String × List Row) (c : Chunk)
    (h : chunkCountMatches parsed c = false) :
    countChunkStep metadata parsed acc c = acc := by
  unfold chunkCountMatches at h
  unfold countChunkStep
  split
  · rfl
  next qid heq =>
    split
    · rfl
    next hmem =>
      split
      next h1 =>
        rw [if_pos h1] at h
        rw [h]
        simp
      next h1 =>
        rw [if_neg h1] at h
        split
        next h2 =>
          rw [if_pos h2] at h
          split
          next kv hkv =>
            rw [hkv] at h
            simp at h
          next hkv =>
            rw [hkv] at h
            split
            next tkv htv =>
              rw [htv] at h
              simp at h
            next => rfl
        next h2 => rfl

lemma foldl_count_no_match (md : List Chunk) (parsed : ParsedQuery) :
    ∀ (l : List Chunk) (acc : List String × List Row),
      (∀ c ∈ l, chunkCountMatches parsed c = false) →
      l.foldl (countChunkStep md parsed) acc = acc
  | [], _, _ => rfl
  | c :: t, acc, h => by
    rw [List.foldl_cons,
      countChunkStep_no_match md parsed acc c (h c (List.mem_cons_self c t))]
    exact foldl_count_no_match md parsed t acc (fun c' hc' => h c' (List.mem_cons_of_mem c hc'))

/-- The `QueryResult` of a zero-match count. -/
def zeroCountResult : QueryResult :=
  { success := true, data := [], count := 0,
    summary := "0 proposals match the criteria", details := [] }

lemma executeCount_zero (metadata : List Chunk) (parsed : ParsedQuery)
    (h : ∀ c ∈ metadata, chunkCountMatches parsed c = false) :
    _execute_count metadata parsed = zeroCountResult := by
  unfold _execute_count
  rw [foldl_count_no_match metadata parsed metadata ([], []) h]
  rfl

lemma execute_count_route (metadata : List Chunk) (parsed : ParsedQuery)
    (hintent : pyStrip (pyLower parsed.intent) = "count")
    (hroute : truthy parsed.quote_id = true ∨ _should_entity_lookup metadata parsed = false) :
    execute metadata parsed = _execute_count metadata parsed := by
  simp only [execute]
  rw [hintent]
  have h1 : ¬("count" = "lookup" ∧ truthy parsed.quote_id = true) :=
    fun hcon => absurd hcon.1 (by decide)
  rw [if_neg h1]
  have h2 : ¬("count" = "lookup" ∧ ¬truthy parsed.quote_id = true) :=
    fun hcon => absurd hcon.1 (by decide)
  rw [if_neg h2]
  have h3 : ¬(¬truthy parsed.quote_id = true ∧ _should_entity_lookup metadata parsed = true) := by
    rcases hroute with h | h
    · rintro ⟨hn, -⟩
      exact hn h
    · rintro ⟨-, hs⟩
      rw [h] at hs
      cases hs
  rw [if_neg h3, if_pos rfl]

/-- C1 (amended): for a parsed query with intent "count" and a specified
filter matching zero records, *provided the smart entity-lookup detection does
not reroute the query* (a truthy quote id, or `_should_entity_lookup` false),
`execute` returns success=true with count=0, and the formatted final answer is
the fixed "0 proposals match…" text — not the refusal sentinel. The
no-reroute proviso is forced by the counterexample: the reroute can return a
failure (or even non-zero) result. -/
theorem C1_count_zero_matches (metadata : List Chunk) (parsed : ParsedQuery)
    (fmtOracle : Option String)
    (hintent : parsed.intent = "count")
    (hfilter : truthy parsed.filter_contains = true ∨
      (truthy parsed.filter_field = true ∧ truthy parsed.filter_value = true))
    (hzero : ∀ c ∈ metadata, chunkCountMatches parsed c = false)
    (hroute : truthy parsed.quote_id = true ∨ _should_entity_lookup metadata parsed = false) :
    execute metadata parsed = zeroCountResult ∧
    format_answer fmtOracle parsed (execute metadata parsed) =
      "0 proposals match the criteria. No records found with the specified condition." ∧
    format_answer fmtOracle parsed (execute metadata parsed) ≠ REFUSAL_MESSAGE := by
  have hnorm : pyStrip (pyLower parsed.intent) = "count" := by
    rw [hintent]
    decide
  have hexec : execute metadata parsed = zeroCountResult :=
    (execute_count_route metadata parsed hnorm hroute).trans
      (executeCount_zero metadata parsed hzero)
  have hfmt : format_answer fmtOracle parsed (execute metadata parsed) =
      "0 proposals match the criteria. No records found with the specified condition." := by
    rw [hexec]
    unfold format_answer
    rw [if_pos ⟨hintent, rfl⟩]
  refine ⟨hexec, hfmt, ?_⟩
  rw [hfmt]
  decide

def C1_witness_query : ParsedQuery :=
  { intent := "count", target_fields := ["do_you_have_alarm_label"],
    filter_field := some "do_you_have_alarm_label", filter_value := some "001",
    filter_contains := none, quote_id := none, output_fields := ["business_name_label"],
    understood_question := "Count proposals with alarms",
    raw_query := "How many proposals have alarms?", parse_success := true }

/-- Witness for C1: an empty record store matches zero records; the count is
0, successful, and formatted as "0 proposals match…". -/
theorem C1_count_zero_matches_witness :
    (∀ c ∈ ([] : List Chunk), chunkCountMatches C1_witness_query c = false) ∧
    execute [] C1_witness_query = zeroCountResult ∧
    format_answer none C1_witness_query (execute [] C1_witness_query) =
      "0 proposals match the criteria. No records found with the specified condition." := by
  have hzero : ∀ c ∈ ([] : List Chunk), chunkCountMatches C1_witness_query c = false := by
    intro c hc
    cases hc
  have h := C1_count_zero_matches [] C1_witness_query none rfl
    (Or.inr ⟨by decide, by decide⟩) hzero (Or.inr (by decide))
  exact ⟨hzero, h.1, h.2.1⟩

def C1_cex_metadata : List Chunk :=
  [{ quote_id := some "Q1", sectionName := "business_profile", text := "",
     fields := [], decoded_fields := [], risk_location := "", user_name := "Bob" }]

def C1_cex_query : ParsedQuery :=
  { intent := "count", target_fields := [], filter_field := none, filter_value := none,
    filter_contains := some "Zed", quote_id := none, output_fields := ["safe_model_label"],
    understood_question := "", raw_query := "bob zed", parse_success := true }

/-- Counterexample to C1 as stated: a count query whose filter ("Zed") matches
zero records, but whose raw query mentions a known entity ("Bob") while a
non-name output field is requested, is rerouted to the entity lookup — which
returns `success = false`, not the claimed `success = true`. -/
theorem C1_counterexample :
    C1_cex_query.intent = "count" ∧
    truthy C1_cex_query.filter_contains = true ∧
    (∀ c ∈ C1_cex_metadata, chunkCountMatches C1_cex_query c = false) ∧
    (execute C1_cex_metadata C1_cex_query).success = false :=
  ⟨rfl, by decide, by decide, by decide⟩

/-- C10 (amended): a count query with no `filter_contains` and no complete
`filter_field`/`filter_value` pair returns success=true with count=0
regardless of the record store, *provided the entity-lookup smart detection
does not reroute it*; the reroute proviso is forced by the counterexample
(a known entity name in the raw query plus a data output field yields a
non-zero entity-lookup result instead). -/
theorem C10_unfiltered_count_zero (metadata : List Chunk) (parsed : ParsedQuery)
    (hintent : parsed.intent = "count")
    (hnc : truthy parsed.filter_contains = false)
    (hnf : ¬(truthy parsed.filter_field = true ∧ truthy parsed.filter_value = true))
    (hroute : truthy parsed.quote_id = true ∨ _should_entity_lookup metadata parsed = false) :
    execute metadata parsed = zeroCountResult := by
  have hnorm : pyStrip (pyLower parsed.intent) = "count" := by
    rw [hintent]
    decide
  have hzero : ∀ c ∈ metadata, chunkCountMatches parsed c = false := by
    intro c _
    simp [chunkCountMatches, hnc, hnf]
  exact (execute_count_route metadata parsed hnorm hroute).trans
    (executeCount_zero metadata parsed hzero)

def C10_witness_md : List Chunk :=
  [{ quote_id := some "Q9", sectionName := "alarm", text := "alarm yes",
     fields := [("do_you_have_alarm_label", "001")],
     decoded_fields := [("do_you_have_alarm_label", "Yes")],
     risk_location := "Penang", user_name := "Ana" }]

def C10_witness_pq : ParsedQuery :=
  { intent := "count", target_fields := [], filter_field := none, filter_value := none,
    filter_contains := none, quote_id := none, output_fields := [],
    understood_question := "", raw_query := "how many proposals are there?",
    parse_success := true }

/-- Witness for C10: an unfiltered count over a non-empty store yields 0, not
the store size. -/
theorem C10_unfiltered_count_zero_witness :
    truthy C10_witness_pq.filter_contains = false ∧
    execute C10_witness_md C10_witness_pq = zeroCountResult :=
  ⟨by decide,
   C10_unfiltered_count_zero C10_witness_md C10_witness_pq rfl (by decide) (by decide)
     (Or.inr (by decide))⟩

def C10_cex_metadata : List Chunk :=
  [{ quote_id := some "Q1", sectionName := "safe", text := "",
     fields := [("safe_model_label", "X")], decoded_fields := [("safe_model_label", "X")],
     risk_location := "", user_name := "Bob" }]

def C10_cex_query : ParsedQuery :=
  { intent := "count", target_fields := [], filter_field := none, filter_value := none,
    filter_contains := none, quote_id := none, output_fields := ["safe_model_label"],
    understood_question := "", raw_query := "bob safe?", parse_success := true }

/-- Counterexample to C10 as stated: intent=count with null filter_contains
and no filter pair, but the raw query names a known entity and a data output
field is requested — the entity-lookup reroute returns count 1, not 0. -/
theorem C10_counterexample :
    C10_cex_query.intent = "count" ∧
    truthy C10_cex_query.filter_contains = false ∧
    truthy C10_cex_query.filter_value = false ∧
    (execute C10_cex_metadata C10_cex_query).success = true ∧
    (execute C10_cex_metadata C10_cex_query).count = 1 :=
  ⟨rfl, by decide, by decide, by decide, by decide⟩

/-! ### Claim C2 — refusal when nothing clears the similarity threshold -/

lemma retrieveLoop_fst_below (metadata : List Chunk) (threshold : ℚ) (top_k : Nat)
    (qidFilter : Option String) :
    ∀ (hits : List (ℚ × Int)) (acc : List Chunk) (top : ℚ),
      (∀ p ∈ hits, p.1 < threshold) →
      (retrieveLoopAux metadata threshold top_k qidFilter hits acc top).1 = acc.reverse
  | [], _, _, _ => rfl
  | (s, i) :: rest, acc, top, h => by
    simp only [retrieveLoopAux]
    by_cases hi : i = -1
    · rw [if_pos hi]
      exact retrieveLoop_fst_below metadata threshold top_k qidFilter rest acc top
        (fun p hp => h p (List.mem_cons_of_mem _ hp))
    · rw [if_neg hi]
      have hs : s < threshold := h (s, i) (List.mem_cons_self _ _)
      rw [if_pos hs]
      exact retrieveLoop_fst_below metadata threshold top_k qidFilter rest acc _
        (fun p hp => h p (List.mem_cons_of_mem _ hp))

lemma except_bind_ok {ε α β : Type} (a : α) (f : α → Except ε β) :
    (Except.ok a >>= f : Except ε β) = f a := rfl

lemma except_pure_bind {ε α β : Type} (a : α) (f : α → Except ε β) :
    ((pure a : Except ε α) >>= f) = f a := rfl

/-- C2: any query that reaches the vector-retrieval stage with all retrieved
similarity scores strictly below the 0.5 threshold gets the fixed refusal
sentinel; the conclusion holds for *every* `genOracle`, i.e. independently of
the language model, which is the shallow-embedding statement that the model's
generate is not consulted on this path. Confirmed. -/
theorem C2_refusal_below_threshold {E : Type} (C : Components E) (query : String)
    (quote_id : Option String) (e : E)
    (hidx : C.indexExists = true) (hmd : C.metadataExists = true)
    (hembed : C.embedSingle query = Except.ok e)
    (hbelow : ∀ p ∈ C.searchHits e, p.1 < CHUNK_SIMILARITY_THRESHOLD) :
    semantic_stage C query quote_id = Except.ok REFUSAL_MESSAGE := by
  unfold semantic_stage retrieve_chunks_with_threshold
  rw [if_neg (by simp [hidx, hmd]), hembed]
  simp only [except_bind_ok, except_pure_bind]
  have hfst := retrieveLoop_fst_below C.metadata CHUNK_SIMILARITY_THRESHOLD TOP_K_CHUNKS
    quote_id (C.searchHits e) [] 0 hbelow
  have hempty : (retrieveLoopAux C.metadata CHUNK_SIMILARITY_THRESHOLD TOP_K_CHUNKS
      quote_id (C.searchHits e) [] 0).1.isEmpty = true := by
    rw [hfst]
    rfl
  rw [if_pos hempty]
  rfl

def C2_probe_chunk : Chunk :=
  { quote_id := some "MYJADEQT001", sectionName := "alarm", text := "alarm details",
    fields := [], decoded_fields := [], risk_location := "", user_name := "" }

def C2_components : Components Unit :=
  { embedSingle := fun _ => Except.ok (), qaFind := fun _ => none,
    parserState := ⟨[], [], []⟩, parseOracle := none, fmtOracle := none,
    genOracle := fun _ => Except.error "llm down",
    analyticalRun := fun _ => none, cleanOutput := fun s => s,
    metadata := [C2_probe_chunk], metadataExists := true, indexExists := true,
    searchHits := fun _ => [] }

/-- Witness for C2: a retrieval in which no hit at all clears the threshold
yields the refusal sentinel (the hit list is empty, so the below-threshold
hypothesis holds vacuously). -/
theorem C2_refusal_below_threshold_witness :
    (∀ p ∈ C2_components.searchHits (), p.1 < CHUNK_SIMILARITY_THRESHOLD) ∧
    semantic_stage C2_components "question" none = Except.ok REFUSAL_MESSAGE :=
  ⟨fun p hp => absurd hp (List.not_mem_nil p),
   C2_refusal_below_threshold C2_components "question" none () rfl rfl rfl
     (fun p hp => absurd hp (List.not_mem_nil p))⟩

/-! ### Claim C9 — exception behaviour of handle_query -/

lemma gen_match_isOk {E : Type} (C : Components E) (prompt : String) :
    (match C.genOracle prompt with
      | Except.ok raw_answer => pure (C.cleanOutput raw_answer)
      | Except.error _ => (pure REFUSAL_MESSAGE : Except String String)).isOk = true := by
  cases C.genOracle prompt with
  | ok raw_answer => rfl
  | error err => rfl

lemma semantic_stage_ok {E : Type} (C : Components E) (query : String)
    (qid : Option String) (hembed : ∀ q, (C.embedSingle q).isOk = true) :
    (semantic_stage C query qid).isOk = true := by
  unfold semantic_stage retrieve_chunks_with_threshold
  by_cases hie : ¬C.indexExists = true ∨ ¬C.metadataExists = true
  · rw [if_pos hie]
    rfl
  · rw [if_neg hie]
    have he := hembed query
    cases hq : C.embedSingle query with
    | error err =>
      rw [hq] at he
      cases he
    | ok e =>
      simp only [except_bind_ok, except_pure_bind]
      by_cases hempty : (retrieveLoopAux C.metadata CHUNK_SIMILARITY_THRESHOLD TOP_K_CHUNKS
          qid (C.searchHits e) [] 0).1.isEmpty = true
      · rw [if_pos hempty]
        rfl
      · rw [if_neg hempty]
        exact gen_match_isOk C _

lemma structured_stage_ok {E : Type} (C : Components E) (query : String)
    (qid : Option String) (hembed : ∀ q, (C.embedSingle q).isOk = true) :
    (structured_stage C query qid).isOk = true := by
  unfold structured_stage
  cases structured_lookup C.metadataExists C.metadata query with
  | some r => rfl
  | none =>
    cases search_proposals_by_value C.metadataExists C.metadata query with
    | some r => rfl
    | none => exact semantic_stage_ok C query qid hembed

lemma fallback_stage_ok {E : Type} (C : Components E) (query : String)
    (qid : Option String) (hembed : ∀ q, (C.embedSingle q).isOk = true) :
    (fallback_stage C query qid).isOk = true := by
  unfold fallback_stage
  split
  · cases analytical_query_handler C.metadataExists C.metadata query with
    | some r => rfl
    | none =>
      cases C.analyticalRun query with
      | some r => rfl
      | none => exact structured_stage_ok C query qid hembed
  · exact structured_stage_ok C query qid hembed

lemma main_stage_ok {E : Type} (C : Components E) (query : String)
    (qid : Option String) (hembed : ∀ q, (C.embedSingle q).isOk = true) :
    (main_stage C query qid).isOk = true := by
  simp only [main_stage]
  split
  · rfl
  · split
    · rfl
    · exact fallback_stage_ok C query qid hembed

/-- C9 (amended): when every embedding call succeeds, `handle_query` returns a
textual answer for *every* behaviour of the other collaborators — in
particular for every language-model oracle, failing or not, because each
`llm.generate` call site (parser, formatter, semantic stage) catches its
failure and degrades. The claim's stated form — that embedding failures are
also caught — is false: the `embed_single` calls are not inside a try/except,
so their exception propagates out of `handle_query` (see the
counterexample). -/
theorem C9_embed_ok_total {E : Type} (C : Components E) (query : String)
    (hembed : ∀ q, (C.embedSingle q).isOk = true) :
    (handle_query C query).isOk = true := by
  simp only [handle_query]
  have he := hembed (pyStrip query)
  cases hq : C.embedSingle (pyStrip query) with
  | error err =>
    rw [hq] at he
    cases he
  | ok e =>
    simp only [except_bind_ok]
    cases C.qaFind e with
    | some predefined_answer => rfl
    | none => exact main_stage_ok C (pyStrip query) (extract_quote_id (pyStrip query)) hembed

def C9_witness_components : Components Unit :=
  { embedSingle := fun _ => Except.ok (), qaFind := fun _ => some "Cached answer.",
    parserState := ⟨[], [], []⟩, parseOracle := none, fmtOracle := none,
    genOracle := fun _ => Except.error "llm down",
    analyticalRun := fun _ => none, cleanOutput := fun s => s, metadata := [],
    metadataExists := true, indexExists := true, searchHits := fun _ => [] }

/-- Witness for C9: with succeeding embeds (and a failing language model),
`handle_query` still returns an answer. -/
theorem C9_embed_ok_total_witness :
    (∀ q, (C9_witness_components.embedSingle q).isOk = true) ∧
    (handle_query C9_witness_components "hi").isOk = true :=
  ⟨fun q => rfl, C9_embed_ok_total C9_witness_components "hi" (fun q => rfl)⟩

def C9_cex_components : Components Unit :=
  { embedSingle := fun _ => Except.error "embedding backend unreachable",
    qaFind := fun _ => none, parserState := ⟨[], [], []⟩, parseOracle := none,
    fmtOracle := none, genOracle := fun _ => Except.ok "fine",
    analyticalRun := fun _ => none, cleanOutput := fun s => s, metadata := [],
    metadataExists := true, indexExists := true, searchHits := fun _ => [] }

/-- Counterexample to C9 as stated: an embedding call that throws is *not*
caught inside `handle_query` — the exception propagates to the caller instead
of degrading to a fallback branch or the refusal. -/
theorem C9_counterexample :
    handle_query C9_cex_components "hello" =
      Except.error "embedding backend unreachable" := rfl
